import Mathlib

/-!
# Engine-control core: controller state machine and safety interlock

A shallow embedding of `src/src/Controller/controller.c` and
`src/src/DIL/engine_interface.c` (with the sensor and GPIO layers they call).

* The module-level C variables (`current_state`, `config`, `state_entry_time`,
  `current_status`, `current_throttle`) are the fields of one record, `System`,
  threaded through every function.
* `HAL_GPIO_WritePin` has an empty body in the repository; here it appends the
  command to a trace (`System.gpio`) so that "which actuation commands were
  issued" can be stated.
* Sensor acquisition is the environment.  `Sensors_GetData` returns the next
  element of a stream `sensors : Nat → SensorData_t`; `System.acquisitions`
  counts the acquisitions made so far, so two reads inside one call may differ.
* C `float` values are modelled by `F32`: an exact rational, the two infinities
  or NaN.  Comparisons are the IEEE-754 ones (false as soon as one side is NaN);
  sums and products are rounded to binary32 (round to nearest, ties to even).
-/

/-! ## Floating point values -/

/-- Value of a C `float`: NaN, minus infinity, a finite number, plus infinity.
The two zeros are identified (they compare equal in C). -/
inductive F32 where
  | nan : F32
  | ninf : F32
  | fin (q : ℚ) : F32
  | pinf : F32
deriving DecidableEq

namespace F32

instance : Inhabited F32 := ⟨F32.fin 0⟩

/-- The C comparison `a > b`. -/
def gt : F32 → F32 → Bool
  | nan, _ => false
  | _, nan => false
  | pinf, pinf => false
  | pinf, _ => true
  | _, pinf => false
  | ninf, _ => false
  | fin _, ninf => true
  | fin a, fin b => decide (b < a)

/-- The C comparison `a < b`. -/
def lt (a b : F32) : Bool := gt b a

/-- The C comparison `a <= b`. -/
def le : F32 → F32 → Bool
  | nan, _ => false
  | _, nan => false
  | a, b => !(gt a b)

/-- Whether the value is NaN. -/
def isNaN : F32 → Bool
  | nan => true
  | _ => false

/-- Greatest `k` with `2 ^ k ≤ a`, for a positive rational `a`. -/
def ilog2 (a : ℚ) : ℤ :=
  let k : ℤ := (Nat.log2 a.num.natAbs : ℤ) - (Nat.log2 a.den : ℤ)
  if (2 : ℚ) ^ k ≤ a then k else k - 1

/-- Nearest integer, ties to the even one. -/
def roundHalfEven (x : ℚ) : ℤ :=
  let f : ℤ := x.num / (x.den : ℤ)
  let d : ℚ := x - f
  if d < 1 / 2 then f
  else if 1 / 2 < d then f + 1
  else if f % 2 = 0 then f else f + 1

/-- Rounding of an exact rational to binary32 (24-bit significand, exponent range
`-126 .. 127`, gradual underflow, overflow to infinity). -/
def round32 (q : ℚ) : F32 :=
  if q = 0 then fin 0
  else
    let a : ℚ := |q|
    let e : ℤ := max (ilog2 a) (-126)
    let ulp : ℚ := (2 : ℚ) ^ (e - 23)
    let r : ℚ := (roundHalfEven (a / ulp) : ℚ) * ulp
    if (2 : ℚ) ^ (128 : ℤ) ≤ r then (if q < 0 then ninf else pinf)
    else fin (if q < 0 then -r else r)

/-- Whether a value is one a binary32 variable can hold. -/
def isBinary32 : F32 → Bool
  | fin q => decide (round32 q = fin q)
  | _ => true

/-- The C product `a * b` on `float`. -/
def mul : F32 → F32 → F32
  | nan, _ => nan
  | _, nan => nan
  | fin a, fin b => round32 (a * b)
  | fin a, pinf => if a = 0 then nan else if 0 < a then pinf else ninf
  | fin a, ninf => if a = 0 then nan else if 0 < a then ninf else pinf
  | pinf, fin b => if b = 0 then nan else if 0 < b then pinf else ninf
  | ninf, fin b => if b = 0 then nan else if 0 < b then ninf else pinf
  | pinf, pinf => pinf
  | ninf, ninf => pinf
  | pinf, ninf => ninf
  | ninf, pinf => ninf

end F32

/-! ## Data model (`sensors.h`, `engine_interface.h`, `controller.h`) -/

/-- Sensor data structure (`SensorData_t`). -/
structure SensorData_t where
  temperature : F32
  pressure : F32
  flow_rate : F32
  timestamp : Nat
deriving DecidableEq, Inhabited

/-- Engine status enumeration (`EngineStatus_t`). -/
inductive EngineStatus_t where
  | ENGINE_STATUS_IDLE
  | ENGINE_STATUS_READY
  | ENGINE_STATUS_RUNNING
  | ENGINE_STATUS_FAULT
  | ENGINE_STATUS_SHUTDOWN
deriving DecidableEq, Inhabited

/-- Engine parameters structure (`EngineParams_t`). -/
structure EngineParams_t where
  chamber_temperature : F32
  chamber_pressure : F32
  fuel_flow_rate : F32
  oxidizer_flow_rate : F32
  thrust : F32
  status : EngineStatus_t
deriving DecidableEq, Inhabited

/-- Controller state enumeration (`ControllerState_t`). -/
inductive ControllerState_t where
  | CONTROLLER_STATE_INIT
  | CONTROLLER_STATE_IDLE
  | CONTROLLER_STATE_PREFLIGHT_CHECK
  | CONTROLLER_STATE_ARMED
  | CONTROLLER_STATE_IGNITION
  | CONTROLLER_STATE_RUNNING
  | CONTROLLER_STATE_SHUTDOWN
  | CONTROLLER_STATE_ERROR
deriving DecidableEq, Inhabited

/-- Controller configuration structure (`ControllerConfig_t`). -/
structure ControllerConfig_t where
  target_thrust : F32
  max_temperature : F32
  max_pressure : F32
  run_duration_ms : Nat
deriving DecidableEq, Inhabited

/-- One `HAL_GPIO_WritePin(port, pin, state)` command received by the actuation sink. -/
structure GpioWrite where
  port : Nat
  pin : Nat
  state : Nat
deriving DecidableEq, Inhabited

/-- The module-level variables of `controller.c` and `engine_interface.c`, the trace of
GPIO commands issued so far, and the number of sensor acquisitions made so far. -/
structure System where
  current_state : ControllerState_t
  config : ControllerConfig_t
  state_entry_time : Nat
  current_status : EngineStatus_t
  current_throttle : F32
  gpio : List GpioWrite
  acquisitions : Nat
deriving DecidableEq

open ControllerState_t EngineStatus_t

/-- The static initialiser of `config` in `controller.c`. -/
def default_config : ControllerConfig_t :=
  { target_thrust := F32.fin 1000
    max_temperature := F32.fin 180
    max_pressure := F32.fin 80
    run_duration_ms := 5000 }

/-- The values of the module-level variables at program start (their static initialisers). -/
def power_on : System :=
  { current_state := CONTROLLER_STATE_INIT
    config := default_config
    state_entry_time := 0
    current_status := ENGINE_STATUS_IDLE
    current_throttle := F32.fin 0
    gpio := []
    acquisitions := 0 }

/-! ## HAL and sensor layer -/

/-- The C function `HAL_GPIO_WritePin(uint32_t port, uint16_t pin, uint8_t state)`: the command is recorded. -/
def HAL_GPIO_WritePin (port pin state : Nat) (w : System) : System :=
  { w with gpio := w.gpio ++ [{ port := port % 2 ^ 32, pin := pin % 2 ^ 16, state := state % 2 ^ 8 }] }

/-- The C function `HAL_UART_Init`: empty body. -/
def HAL_UART_Init (w : System) : System := w

/-- The C function `Sensors_Init`: empty body. -/
def Sensors_Init (w : System) : System := w

/-- The C function `Sensors_GetData(SensorData_t *data)`: with a non-NULL pointer one acquisition is made
(the three readings come from the environment, the timestamp is set to 0) and stored in the
pointee; with NULL nothing happens.  The result is the pointee after the call. -/
def Sensors_GetData (sensors : Nat → SensorData_t) (data : Option SensorData_t) (w : System) :
    Option SensorData_t × System :=
  match data with
  | none => (none, w)
  | some d =>
    let d1 := { d with temperature := (sensors w.acquisitions).temperature }
    let d2 := { d1 with pressure := (sensors w.acquisitions).pressure }
    let d3 := { d2 with flow_rate := (sensors w.acquisitions).flow_rate }
    let d4 := { d3 with timestamp := 0 }
    (some d4, { w with acquisitions := w.acquisitions + 1 })

/-! ## Engine interface (`engine_interface.c`) -/

/-- The C function `EngineInterface_Init`. -/
def EngineInterface_Init (w : System) : System :=
  let w1 := Sensors_Init w
  { w1 with current_status := ENGINE_STATUS_IDLE, current_throttle := F32.fin 0 }

/-- The C function `EngineInterface_CheckSafety`. -/
def EngineInterface_CheckSafety (sensors : Nat → SensorData_t) (w : System) : Bool × System :=
  let r := Sensors_GetData sensors (some default) w
  let sensor_data := r.1.getD default
  if F32.gt sensor_data.temperature (F32.fin 200) then (false, r.2)
  else if F32.gt sensor_data.pressure (F32.fin 100) then (false, r.2)
  else (true, r.2)

/-- The C function `EngineInterface_Start`. -/
def EngineInterface_Start (sensors : Nat → SensorData_t) (w : System) : System :=
  let r := EngineInterface_CheckSafety sensors w
  if r.1 then
    let w1 := { r.2 with current_status := ENGINE_STATUS_READY }
    { w1 with current_status := ENGINE_STATUS_RUNNING }
  else
    { r.2 with current_status := ENGINE_STATUS_FAULT }

/-- The C function `EngineInterface_OpenValve(uint8_t valve_id)`. -/
def EngineInterface_OpenValve (valve_id : Nat) (w : System) : System :=
  HAL_GPIO_WritePin 0 (valve_id % 2 ^ 8) 1 w

/-- The C function `EngineInterface_CloseValve(uint8_t valve_id)`. -/
def EngineInterface_CloseValve (valve_id : Nat) (w : System) : System :=
  HAL_GPIO_WritePin 0 (valve_id % 2 ^ 8) 0 w

/-- The C function `EngineInterface_Stop`. -/
def EngineInterface_Stop (w : System) : System :=
  let w1 := EngineInterface_CloseValve 0 w
  let w2 := EngineInterface_CloseValve 1 w1
  let w3 := { w2 with current_throttle := F32.fin 0 }
  { w3 with current_status := ENGINE_STATUS_SHUTDOWN }

/-- The C function `EngineInterface_SetThrottle(float throttle_percent)`. -/
def EngineInterface_SetThrottle (throttle_percent : F32) (w : System) : System :=
  let throttle_percent :=
    if F32.lt throttle_percent (F32.fin 0) then F32.fin 0
    else if F32.gt throttle_percent (F32.fin 100) then F32.fin 100
    else throttle_percent
  { w with current_throttle := throttle_percent }

/-- The constant `0.8f`. -/
def ratio_0_8f : F32 := F32.round32 (4 / 5)

/-- The constant `10.0f`. -/
def factor_10f : F32 := F32.fin 10

/-- The C function `EngineInterface_GetParameters(EngineParams_t *params)`: with a non-NULL pointer the pointee
is filled from one fresh acquisition; with NULL nothing happens.  The result is the pointee
after the call. -/
def EngineInterface_GetParameters (sensors : Nat → SensorData_t) (params : Option EngineParams_t)
    (w : System) : Option EngineParams_t × System :=
  match params with
  | none => (none, w)
  | some p =>
    let r := Sensors_GetData sensors (some default) w
    let sensor_data := r.1.getD default
    let p1 := { p with chamber_temperature := sensor_data.temperature }
    let p2 := { p1 with chamber_pressure := sensor_data.pressure }
    let p3 := { p2 with fuel_flow_rate := sensor_data.flow_rate }
    let p4 := { p3 with oxidizer_flow_rate := F32.mul sensor_data.flow_rate ratio_0_8f }
    let p5 := { p4 with thrust := F32.mul p4.chamber_pressure factor_10f }
    let p6 := { p5 with status := r.2.current_status }
    (some p6, r.2)

/-- The C function `EngineInterface_GetStatus`. -/
def EngineInterface_GetStatus (w : System) : EngineStatus_t := w.current_status

/-- The C function `EngineInterface_TriggerIgnition`. -/
def EngineInterface_TriggerIgnition (w : System) : System :=
  let w1 := HAL_GPIO_WritePin 0 10 1 w
  HAL_GPIO_WritePin 0 10 0 w1

/-! ## Controller (`controller.c`) -/

/-- The C function `Controller_SetState`. -/
def Controller_SetState (new_state : ControllerState_t) (w : System) : System :=
  let w1 := { w with current_state := new_state }
  { w1 with state_entry_time := 0 }

/-- The C function `Controller_GetState`. -/
def Controller_GetState (w : System) : ControllerState_t := w.current_state

/-- The C function `Controller_Init`. -/
def Controller_Init (w : System) : System :=
  let w1 := EngineInterface_Init w
  let w2 := HAL_UART_Init w1
  { w2 with current_state := CONTROLLER_STATE_IDLE }

/-- The C function `Controller_SetConfig(const ControllerConfig_t *new_config)`; `none` is the NULL pointer. -/
def Controller_SetConfig (new_config : Option ControllerConfig_t) (w : System) : System :=
  match new_config with
  | some c => { w with config := c }
  | none => w

/-- The C function `Controller_GetConfig(ControllerConfig_t *out_config)`; `none` is the NULL pointer.  The
result is the pointee after the call. -/
def Controller_GetConfig (out_config : Option ControllerConfig_t) (w : System) :
    Option ControllerConfig_t × System :=
  match out_config with
  | some _ => (some w.config, w)
  | none => (none, w)

/-- The C function `Controller_Arm`. -/
def Controller_Arm (w : System) : Bool × System :=
  if w.current_state = CONTROLLER_STATE_IDLE then
    (true, Controller_SetState CONTROLLER_STATE_PREFLIGHT_CHECK w)
  else (false, w)

/-- The C function `Controller_Disarm`. -/
def Controller_Disarm (w : System) : Bool × System :=
  if w.current_state = CONTROLLER_STATE_ARMED then
    (true, Controller_SetState CONTROLLER_STATE_IDLE w)
  else (false, w)

/-- The C function `Controller_StartEngine`. -/
def Controller_StartEngine (sensors : Nat → SensorData_t) (w : System) : Bool × System :=
  if w.current_state = CONTROLLER_STATE_ARMED then
    let w1 := EngineInterface_Start sensors w
    (true, Controller_SetState CONTROLLER_STATE_IGNITION w1)
  else (false, w)

/-- The C function `Controller_StopEngine`. -/
def Controller_StopEngine (w : System) : Bool × System :=
  if w.current_state = CONTROLLER_STATE_RUNNING then
    (true, Controller_SetState CONTROLLER_STATE_SHUTDOWN w)
  else (false, w)

/-- The C function `Controller_EmergencyShutdown`. -/
def Controller_EmergencyShutdown (w : System) : System :=
  let w1 := EngineInterface_Stop w
  Controller_SetState CONTROLLER_STATE_ERROR w1

/-- The C function `Controller_UpdateTelemetry`: the parameters are fetched into a local and dropped. -/
def Controller_UpdateTelemetry (sensors : Nat → SensorData_t) (w : System) : System :=
  (EngineInterface_GetParameters sensors (some default) w).2

/-- The C function `Controller_CheckSystemHealth`. -/
def Controller_CheckSystemHealth (sensors : Nat → SensorData_t) (w : System) : Bool × System :=
  let r := EngineInterface_CheckSafety sensors w
  if !r.1 then (false, r.2)
  else
    let g := EngineInterface_GetParameters sensors (some default) r.2
    let params := g.1.getD default
    if F32.gt params.chamber_temperature g.2.config.max_temperature then (false, g.2)
    else if F32.gt params.chamber_pressure g.2.config.max_pressure then (false, g.2)
    else (true, g.2)

/-- The C function `Controller_Run`.  The `default:` arm of the C `switch` has no counterpart: the eight
enumerators are all the values of `ControllerState_t`. -/
def Controller_Run (sensors : Nat → SensorData_t) (w : System) : System :=
  let w1 := Controller_UpdateTelemetry sensors w
  match w1.current_state with
  | CONTROLLER_STATE_INIT => Controller_SetState CONTROLLER_STATE_IDLE w1
  | CONTROLLER_STATE_IDLE => w1
  | CONTROLLER_STATE_PREFLIGHT_CHECK =>
    let h := Controller_CheckSystemHealth sensors w1
    if h.1 then Controller_SetState CONTROLLER_STATE_ARMED h.2
    else Controller_SetState CONTROLLER_STATE_ERROR h.2
  | CONTROLLER_STATE_ARMED => w1
  | CONTROLLER_STATE_IGNITION =>
    let w2 := EngineInterface_TriggerIgnition w1
    Controller_SetState CONTROLLER_STATE_RUNNING w2
  | CONTROLLER_STATE_RUNNING =>
    let h := Controller_CheckSystemHealth sensors w1
    if !h.1 then Controller_EmergencyShutdown h.2 else h.2
  | CONTROLLER_STATE_SHUTDOWN =>
    let w2 := EngineInterface_Stop w1
    Controller_SetState CONTROLLER_STATE_IDLE w2
  | CONTROLLER_STATE_ERROR => EngineInterface_Stop w1

/-! ## Sequences of calls -/

/-- The operations a driver loop or an operator layer invokes on a running controller. -/
inductive Op where
  | Run
  | Arm
  | Disarm
  | StartEngine
  | StopEngine
  | EmergencyShutdown
  | SetConfig (new_config : Option ControllerConfig_t)
  | GetConfig (out_config : Option ControllerConfig_t)
deriving DecidableEq

/-- Effect of one operation on the system (return values dropped). -/
def Op.apply (sensors : Nat → SensorData_t) (o : Op) (w : System) : System :=
  match o with
  | Op.Run => Controller_Run sensors w
  | Op.Arm => (Controller_Arm w).2
  | Op.Disarm => (Controller_Disarm w).2
  | Op.StartEngine => (Controller_StartEngine sensors w).2
  | Op.StopEngine => (Controller_StopEngine w).2
  | Op.EmergencyShutdown => Controller_EmergencyShutdown w
  | Op.SetConfig c => Controller_SetConfig c w
  | Op.GetConfig out => (Controller_GetConfig out w).2

/-- Effect of a finite sequence of operations, executed left to right. -/
def runOps (sensors : Nat → SensorData_t) (ops : List Op) (w : System) : System :=
  ops.foldl (fun acc o => Op.apply sensors o acc) w

/-- Every function declared in `controller.h`. -/
inductive ApiCall where
  | Init
  | GetState
  | SetState (new_state : ControllerState_t)
  | UpdateTelemetry
  | CheckSystemHealth
  | op (o : Op)
deriving DecidableEq

/-- Effect of one call of the public controller API on the system (return values dropped). -/
def ApiCall.apply (sensors : Nat → SensorData_t) (c : ApiCall) (w : System) : System :=
  match c with
  | ApiCall.Init => Controller_Init w
  | ApiCall.GetState => w
  | ApiCall.SetState s => Controller_SetState s w
  | ApiCall.UpdateTelemetry => Controller_UpdateTelemetry sensors w
  | ApiCall.CheckSystemHealth => (Controller_CheckSystemHealth sensors w).2
  | ApiCall.op o => Op.apply sensors o w

/-- Effect of a finite sequence of API calls, executed left to right from a given state. -/
def runApi (sensors : Nat → SensorData_t) (calls : List ApiCall) (w : System) : System :=
  calls.foldl (fun acc c => ApiCall.apply sensors c acc) w

/-- Whether an API call is `Controller_SetConfig` with a non-NULL argument. -/
def ApiCall.installsConfig : ApiCall → Bool
  | ApiCall.op (Op.SetConfig (some _)) => true
  | _ => false

/-! ## Concrete inputs used in the examples -/

/-- A snapshot with the given temperature and pressure, no flow. -/
def reading (t p : ℚ) : SensorData_t :=
  { temperature := F32.fin t, pressure := F32.fin p, flow_rate := F32.fin 0, timestamp := 0 }

/-- A snapshot with the given temperature, pressure and flow rate. -/
def reading_with_flow (t p f : ℚ) : SensorData_t :=
  { temperature := F32.fin t, pressure := F32.fin p, flow_rate := F32.fin f, timestamp := 0 }

/-- A sensor source that returns the same snapshot at every acquisition. -/
def steady (s : SensorData_t) : Nat → SensorData_t := fun _ => s

/-- A sensor source that returns 20 degrees C and 1 bar for the first three acquisitions and
250 degrees C and 1 bar from then on. -/
def overheating_sensors : Nat → SensorData_t :=
  fun n => if n < 3 then reading 20 1 else reading 250 1

/-- The relation between controller state and engine status that the operations maintain once
`Controller_Init` has run: the controller is never back in `INIT`, the engine is never left in
`READY`, it is `RUNNING` or `FAULT` while the controller is in `IGNITION` or `RUNNING`, and `IDLE`
or `SHUTDOWN` while the controller is in `IDLE`, `PREFLIGHT_CHECK`, `ARMED` or `ERROR`. -/
def coupled : ControllerState_t → EngineStatus_t → Bool
  | CONTROLLER_STATE_INIT, _ => false
  | _, ENGINE_STATUS_READY => false
  | CONTROLLER_STATE_IGNITION, s => s = ENGINE_STATUS_RUNNING || s = ENGINE_STATUS_FAULT
  | CONTROLLER_STATE_RUNNING, s => s = ENGINE_STATUS_RUNNING || s = ENGINE_STATUS_FAULT
  | CONTROLLER_STATE_SHUTDOWN, _ => true
  | _, s => s = ENGINE_STATUS_IDLE || s = ENGINE_STATUS_SHUTDOWN

/-- The system after `Controller_Init`, `Arm`, one `Run` cycle, `StartEngine` and one more `Run`
cycle under nominal readings (20 degrees C, 1 bar): the controller is in `RUNNING`. -/
def running_system : System :=
  runOps (steady (reading 20 1)) [Op.Arm, Op.Run, Op.StartEngine, Op.Run] (Controller_Init power_on)

/-- The system after `Controller_Init`, `Arm` and one `Run` cycle under nominal readings: the
controller is in `ARMED`. -/
def armed_system : System :=
  runOps (steady (reading 20 1)) [Op.Arm, Op.Run] (Controller_Init power_on)

/-- The running system after an emergency shutdown: the controller is in `ERROR`. -/
def error_system : System := Controller_EmergencyShutdown running_system

/-- The default configuration with the temperature limit replaced by NaN. -/
def nan_limit_config : ControllerConfig_t :=
  { default_config with max_temperature := F32.nan }

/-- The default configuration with the temperature limit raised to 1000 degrees C. -/
def relaxed_config : ControllerConfig_t :=
  { default_config with max_temperature := F32.fin 1000 }

/-! ## Basic facts about the embedding -/

section Lemmas

variable (sensors : Nat → SensorData_t) (w : System)

theorem F32_gt_irrefl (a : F32) : F32.gt a a = false := by
  cases a <;> simp [F32.gt]

theorem F32_le_eq_not_gt (a b : F32) (ha : a.isNaN = false) (hb : b.isNaN = false) :
    F32.le a b = !(F32.gt a b) := by
  cases a <;> cases b <;> simp_all [F32.le, F32.isNaN]

theorem Sensors_GetData_some (d : SensorData_t) :
    Sensors_GetData sensors (some d) w =
      (some { temperature := (sensors w.acquisitions).temperature
              pressure := (sensors w.acquisitions).pressure
              flow_rate := (sensors w.acquisitions).flow_rate
              timestamp := 0 },
       { w with acquisitions := w.acquisitions + 1 }) := rfl

theorem EngineInterface_CheckSafety_fst :
    (EngineInterface_CheckSafety sensors w).1 =
      (!(F32.gt (sensors w.acquisitions).temperature (F32.fin 200)) &&
       !(F32.gt (sensors w.acquisitions).pressure (F32.fin 100))) := by
  unfold EngineInterface_CheckSafety
  rw [Sensors_GetData_some]
  by_cases h1 : F32.gt (sensors w.acquisitions).temperature (F32.fin 200) = true
  · simp [h1]
  · by_cases h2 : F32.gt (sensors w.acquisitions).pressure (F32.fin 100) = true
    · simp [h1, h2]
    · simp [h1, h2]

theorem EngineInterface_CheckSafety_snd :
    (EngineInterface_CheckSafety sensors w).2 = { w with acquisitions := w.acquisitions + 1 } := by
  unfold EngineInterface_CheckSafety
  rw [Sensors_GetData_some]
  by_cases h1 : F32.gt (sensors w.acquisitions).temperature (F32.fin 200) = true
  · simp [h1]
  · by_cases h2 : F32.gt (sensors w.acquisitions).pressure (F32.fin 100) = true
    · simp [h1, h2]
    · simp [h1, h2]

theorem EngineInterface_GetParameters_some (p : EngineParams_t) :
    EngineInterface_GetParameters sensors (some p) w =
      (some { chamber_temperature := (sensors w.acquisitions).temperature
              chamber_pressure := (sensors w.acquisitions).pressure
              fuel_flow_rate := (sensors w.acquisitions).flow_rate
              oxidizer_flow_rate := F32.mul (sensors w.acquisitions).flow_rate ratio_0_8f
              thrust := F32.mul (sensors w.acquisitions).pressure factor_10f
              status := w.current_status },
       { w with acquisitions := w.acquisitions + 1 }) := rfl

theorem Controller_UpdateTelemetry_eq :
    Controller_UpdateTelemetry sensors w = { w with acquisitions := w.acquisitions + 1 } := rfl

theorem Controller_CheckSystemHealth_fst :
    (Controller_CheckSystemHealth sensors w).1 =
      ((EngineInterface_CheckSafety sensors w).1 &&
       !(F32.gt (sensors (w.acquisitions + 1)).temperature w.config.max_temperature) &&
       !(F32.gt (sensors (w.acquisitions + 1)).pressure w.config.max_pressure)) := by
  unfold Controller_CheckSystemHealth
  by_cases hs : (EngineInterface_CheckSafety sensors w).1 = true
  · simp only [hs, EngineInterface_GetParameters_some, EngineInterface_CheckSafety_snd]
    by_cases h1 : F32.gt (sensors (w.acquisitions + 1)).temperature w.config.max_temperature = true
    · simp [h1]
    · by_cases h2 : F32.gt (sensors (w.acquisitions + 1)).pressure w.config.max_pressure = true
      · simp [h1, h2]
      · simp [h1, h2]
  · simp [hs]

theorem Controller_CheckSystemHealth_snd_state :
    (Controller_CheckSystemHealth sensors w).2.current_state = w.current_state ∧
    (Controller_CheckSystemHealth sensors w).2.config = w.config ∧
    (Controller_CheckSystemHealth sensors w).2.current_status = w.current_status ∧
    (Controller_CheckSystemHealth sensors w).2.current_throttle = w.current_throttle ∧
    (Controller_CheckSystemHealth sensors w).2.gpio = w.gpio := by
  unfold Controller_CheckSystemHealth
  by_cases hs : (EngineInterface_CheckSafety sensors w).1 = true
  · simp only [hs, EngineInterface_GetParameters_some, EngineInterface_CheckSafety_snd]
    by_cases h1 : F32.gt (sensors (w.acquisitions + 1)).temperature w.config.max_temperature = true
    · simp [h1]
    · by_cases h2 : F32.gt (sensors (w.acquisitions + 1)).pressure w.config.max_pressure = true
      · simp [h1, h2]
      · simp [h1, h2]
  · simp [hs, EngineInterface_CheckSafety_snd]

theorem Controller_CheckSystemHealth_snd :
    (Controller_CheckSystemHealth sensors w).2 =
      { w with acquisitions :=
          w.acquisitions + (if (EngineInterface_CheckSafety sensors w).1 then 2 else 1) } := by
  unfold Controller_CheckSystemHealth
  by_cases hs : (EngineInterface_CheckSafety sensors w).1 = true
  · simp only [hs, EngineInterface_GetParameters_some, EngineInterface_CheckSafety_snd]
    by_cases h1 : F32.gt (sensors (w.acquisitions + 1)).temperature w.config.max_temperature = true
    · simp [h1, Nat.add_assoc]
    · by_cases h2 : F32.gt (sensors (w.acquisitions + 1)).pressure w.config.max_pressure = true
      · simp [h1, h2, Nat.add_assoc]
      · simp [h1, h2, Nat.add_assoc]
  · simp [hs, EngineInterface_CheckSafety_snd]

theorem EngineInterface_Stop_eq :
    EngineInterface_Stop w =
      { w with
        gpio := w.gpio ++ [{ port := 0, pin := 0, state := 0 }, { port := 0, pin := 1, state := 0 }]
        current_throttle := F32.fin 0
        current_status := ENGINE_STATUS_SHUTDOWN } := by
  simp [EngineInterface_Stop, EngineInterface_CloseValve, HAL_GPIO_WritePin]

theorem EngineInterface_TriggerIgnition_eq :
    EngineInterface_TriggerIgnition w =
      { w with
        gpio := w.gpio ++
          [{ port := 0, pin := 10, state := 1 }, { port := 0, pin := 10, state := 0 }] } := by
  simp [EngineInterface_TriggerIgnition, HAL_GPIO_WritePin]

theorem Controller_Run_current_state :
    (Controller_Run sensors w).current_state =
      match w.current_state with
      | CONTROLLER_STATE_INIT => CONTROLLER_STATE_IDLE
      | CONTROLLER_STATE_IDLE => CONTROLLER_STATE_IDLE
      | CONTROLLER_STATE_PREFLIGHT_CHECK =>
        if (Controller_CheckSystemHealth sensors (Controller_UpdateTelemetry sensors w)).1
        then CONTROLLER_STATE_ARMED else CONTROLLER_STATE_ERROR
      | CONTROLLER_STATE_ARMED => CONTROLLER_STATE_ARMED
      | CONTROLLER_STATE_IGNITION => CONTROLLER_STATE_RUNNING
      | CONTROLLER_STATE_RUNNING =>
        if (Controller_CheckSystemHealth sensors (Controller_UpdateTelemetry sensors w)).1
        then CONTROLLER_STATE_RUNNING else CONTROLLER_STATE_ERROR
      | CONTROLLER_STATE_SHUTDOWN => CONTROLLER_STATE_IDLE
      | CONTROLLER_STATE_ERROR => CONTROLLER_STATE_ERROR := by
  have hst : (Controller_UpdateTelemetry sensors w).current_state = w.current_state := rfl
  unfold Controller_Run
  simp only [hst]
  cases hc : w.current_state with
  | CONTROLLER_STATE_INIT => rfl
  | CONTROLLER_STATE_IDLE => simpa using hst.trans hc
  | CONTROLLER_STATE_PREFLIGHT_CHECK =>
    simp only []
    split <;> rfl
  | CONTROLLER_STATE_ARMED => simpa using hst.trans hc
  | CONTROLLER_STATE_IGNITION => rfl
  | CONTROLLER_STATE_RUNNING =>
    simp only []
    cases hh : (Controller_CheckSystemHealth sensors (Controller_UpdateTelemetry sensors w)).1
    · simp [Controller_EmergencyShutdown, Controller_SetState]
    · simp [(Controller_CheckSystemHealth_snd_state sensors _).1, hst, hc]
  | CONTROLLER_STATE_SHUTDOWN => rfl
  | CONTROLLER_STATE_ERROR => simp [EngineInterface_Stop_eq, hst, hc]

theorem Controller_Run_config : (Controller_Run sensors w).config = w.config := by
  have hst : (Controller_UpdateTelemetry sensors w).current_state = w.current_state := rfl
  have hcf : (Controller_UpdateTelemetry sensors w).config = w.config := rfl
  have hh := (Controller_CheckSystemHealth_snd_state sensors
    (Controller_UpdateTelemetry sensors w)).2.1
  unfold Controller_Run
  simp only [hst]
  cases w.current_state with
  | CONTROLLER_STATE_INIT => exact hcf
  | CONTROLLER_STATE_IDLE => exact hcf
  | CONTROLLER_STATE_PREFLIGHT_CHECK =>
    simp only []
    split
    · exact hh.trans hcf
    · exact hh.trans hcf
  | CONTROLLER_STATE_ARMED => exact hcf
  | CONTROLLER_STATE_IGNITION => exact hcf
  | CONTROLLER_STATE_RUNNING =>
    simp only []
    split
    · exact hh.trans hcf
    · exact hh.trans hcf
  | CONTROLLER_STATE_SHUTDOWN => exact hcf
  | CONTROLLER_STATE_ERROR => exact hcf

theorem Op_apply_config (o : Op)
    (h : ∀ c, o ≠ Op.SetConfig (some c)) : (Op.apply sensors o w).config = w.config := by
  cases o with
  | Run => exact Controller_Run_config sensors w
  | Arm =>
    simp only [Op.apply, Controller_Arm]
    split <;> rfl
  | Disarm =>
    simp only [Op.apply, Controller_Disarm]
    split <;> rfl
  | StartEngine =>
    simp only [Op.apply, Controller_StartEngine]
    split
    · simp only [Controller_SetState, EngineInterface_Start, EngineInterface_CheckSafety_snd]
      split <;> rfl
    · rfl
  | StopEngine =>
    simp only [Op.apply, Controller_StopEngine]
    split <;> rfl
  | EmergencyShutdown => rfl
  | SetConfig c =>
    cases c with
    | none => rfl
    | some c => exact absurd rfl (h c)
  | GetConfig out =>
    cases out <;> rfl

theorem ApiCall_apply_config (c : ApiCall) (h : c.installsConfig = false) :
    (ApiCall.apply sensors c w).config = w.config := by
  cases c with
  | Init => rfl
  | GetState => rfl
  | SetState s => rfl
  | UpdateTelemetry => rfl
  | CheckSystemHealth => exact (Controller_CheckSystemHealth_snd_state sensors w).2.1
  | op o =>
    apply Op_apply_config
    intro c hc
    subst hc
    simp [ApiCall.installsConfig] at h

theorem Op_apply_error (o : Op) (h : w.current_state = CONTROLLER_STATE_ERROR) :
    (Op.apply sensors o w).current_state = CONTROLLER_STATE_ERROR := by
  cases o with
  | Run =>
    simp only [Op.apply]
    rw [Controller_Run_current_state, h]
  | Arm => simp [Op.apply, Controller_Arm, h]
  | Disarm => simp [Op.apply, Controller_Disarm, h]
  | StartEngine => simp [Op.apply, Controller_StartEngine, h]
  | StopEngine => simp [Op.apply, Controller_StopEngine, h]
  | EmergencyShutdown => rfl
  | SetConfig c => cases c <;> exact h
  | GetConfig out => cases out <;> exact h

theorem EngineInterface_Start_eq :
    EngineInterface_Start sensors w =
      { w with
        acquisitions := w.acquisitions + 1
        current_status :=
          if (EngineInterface_CheckSafety sensors w).1 then ENGINE_STATUS_RUNNING
          else ENGINE_STATUS_FAULT } := by
  unfold EngineInterface_Start
  cases h : (EngineInterface_CheckSafety sensors w).1 <;>
    simp [h, EngineInterface_CheckSafety_snd]

theorem F32_mul_fin_exact (a b : ℚ) (h : F32.isBinary32 (F32.fin (a * b)) = true) :
    F32.mul (F32.fin a) (F32.fin b) = F32.fin (a * b) := by
  simpa [F32.isBinary32, F32.mul] using h

theorem ratio_0_8f_value : ratio_0_8f = F32.fin (13421773 / 16777216) := by
  decide!

theorem Controller_Run_of_preflight (h : w.current_state = CONTROLLER_STATE_PREFLIGHT_CHECK) :
    Controller_Run sensors w =
      if (Controller_CheckSystemHealth sensors (Controller_UpdateTelemetry sensors w)).1 then
        Controller_SetState CONTROLLER_STATE_ARMED
          (Controller_CheckSystemHealth sensors (Controller_UpdateTelemetry sensors w)).2
      else
        Controller_SetState CONTROLLER_STATE_ERROR
          (Controller_CheckSystemHealth sensors (Controller_UpdateTelemetry sensors w)).2 := by
  have hst : (Controller_UpdateTelemetry sensors w).current_state = w.current_state := rfl
  unfold Controller_Run
  simp only [hst, h]

theorem Controller_Run_of_ignition (h : w.current_state = CONTROLLER_STATE_IGNITION) :
    Controller_Run sensors w =
      Controller_SetState CONTROLLER_STATE_RUNNING
        (EngineInterface_TriggerIgnition (Controller_UpdateTelemetry sensors w)) := by
  have hst : (Controller_UpdateTelemetry sensors w).current_state = w.current_state := rfl
  unfold Controller_Run
  simp only [hst, h]

theorem Controller_Run_of_running (h : w.current_state = CONTROLLER_STATE_RUNNING) :
    Controller_Run sensors w =
      if (Controller_CheckSystemHealth sensors (Controller_UpdateTelemetry sensors w)).1 then
        (Controller_CheckSystemHealth sensors (Controller_UpdateTelemetry sensors w)).2
      else
        Controller_EmergencyShutdown
          (Controller_CheckSystemHealth sensors (Controller_UpdateTelemetry sensors w)).2 := by
  have hst : (Controller_UpdateTelemetry sensors w).current_state = w.current_state := rfl
  unfold Controller_Run
  simp only [hst, h]
  cases (Controller_CheckSystemHealth sensors (Controller_UpdateTelemetry sensors w)).1 <;> rfl

theorem Controller_Run_of_shutdown (h : w.current_state = CONTROLLER_STATE_SHUTDOWN) :
    Controller_Run sensors w =
      Controller_SetState CONTROLLER_STATE_IDLE
        (EngineInterface_Stop (Controller_UpdateTelemetry sensors w)) := by
  have hst : (Controller_UpdateTelemetry sensors w).current_state = w.current_state := rfl
  unfold Controller_Run
  simp only [hst, h]

theorem Controller_CheckSystemHealth_steady (s : SensorData_t) (v : System)
    (hcfg : v.config = w.config) :
    (Controller_CheckSystemHealth (steady s) v).1 = (Controller_CheckSystemHealth (steady s) w).1 := by
  simp only [Controller_CheckSystemHealth_fst, EngineInterface_CheckSafety_fst, steady, hcfg]

theorem EngineInterface_CheckSafety_of_health
    (h : (Controller_CheckSystemHealth sensors w).1 = true) :
    (EngineInterface_CheckSafety sensors w).1 = true := by
  rw [Controller_CheckSystemHealth_fst] at h
  simp only [Bool.and_eq_true] at h
  exact h.1.1

theorem EngineInterface_CheckSafety_steady (s : SensorData_t) (v : System) :
    (EngineInterface_CheckSafety (steady s) v).1 = (EngineInterface_CheckSafety (steady s) w).1 := by
  simp only [EngineInterface_CheckSafety_fst, steady]

theorem Controller_Run_of_init (h : w.current_state = CONTROLLER_STATE_INIT) :
    Controller_Run sensors w =
      Controller_SetState CONTROLLER_STATE_IDLE (Controller_UpdateTelemetry sensors w) := by
  have hst : (Controller_UpdateTelemetry sensors w).current_state = w.current_state := rfl
  unfold Controller_Run
  simp only [hst, h]

theorem Controller_Run_of_idle (h : w.current_state = CONTROLLER_STATE_IDLE) :
    Controller_Run sensors w = Controller_UpdateTelemetry sensors w := by
  have hst : (Controller_UpdateTelemetry sensors w).current_state = w.current_state := rfl
  unfold Controller_Run
  simp only [hst, h]

theorem Controller_Run_of_armed (h : w.current_state = CONTROLLER_STATE_ARMED) :
    Controller_Run sensors w = Controller_UpdateTelemetry sensors w := by
  have hst : (Controller_UpdateTelemetry sensors w).current_state = w.current_state := rfl
  unfold Controller_Run
  simp only [hst, h]

theorem Controller_Run_of_error (h : w.current_state = CONTROLLER_STATE_ERROR) :
    Controller_Run sensors w = EngineInterface_Stop (Controller_UpdateTelemetry sensors w) := by
  have hst : (Controller_UpdateTelemetry sensors w).current_state = w.current_state := rfl
  unfold Controller_Run
  simp only [hst, h]

theorem Controller_Run_coupled
    (hc : coupled w.current_state w.current_status = true)
    (ht : w.current_throttle = F32.fin 0) :
    coupled (Controller_Run sensors w).current_state (Controller_Run sensors w).current_status = true ∧
    (Controller_Run sensors w).current_throttle = F32.fin 0 := by
  have hsnd := Controller_CheckSystemHealth_snd sensors (Controller_UpdateTelemetry sensors w)
  cases hst : w.current_state with
  | CONTROLLER_STATE_INIT => simp [hst, coupled] at hc
  | CONTROLLER_STATE_IDLE =>
    rw [Controller_Run_of_idle sensors w hst, Controller_UpdateTelemetry_eq]
    exact ⟨by simpa [hst] using hc, ht⟩
  | CONTROLLER_STATE_PREFLIGHT_CHECK =>
    rw [Controller_Run_of_preflight sensors w hst, hsnd, Controller_UpdateTelemetry_eq]
    rw [hst] at hc
    cases hss : w.current_status <;> rw [hss] at hc <;> simp [coupled] at hc <;>
      split <;> simp [Controller_SetState, hss, ht, coupled]
  | CONTROLLER_STATE_ARMED =>
    rw [Controller_Run_of_armed sensors w hst, Controller_UpdateTelemetry_eq]
    exact ⟨by simpa [hst] using hc, ht⟩
  | CONTROLLER_STATE_IGNITION =>
    rw [Controller_Run_of_ignition sensors w hst, EngineInterface_TriggerIgnition_eq,
      Controller_UpdateTelemetry_eq]
    rw [hst] at hc
    cases hss : w.current_status <;> rw [hss] at hc <;> simp [coupled] at hc <;>
      simp [Controller_SetState, hss, ht, coupled]
  | CONTROLLER_STATE_RUNNING =>
    rw [Controller_Run_of_running sensors w hst, hsnd, Controller_UpdateTelemetry_eq]
    rw [hst] at hc
    cases hss : w.current_status <;> rw [hss] at hc <;> simp [coupled] at hc <;>
      split <;>
      simp [Controller_EmergencyShutdown, Controller_SetState, EngineInterface_Stop_eq,
        hst, hss, ht, coupled]
  | CONTROLLER_STATE_SHUTDOWN =>
    rw [Controller_Run_of_shutdown sensors w hst, EngineInterface_Stop_eq,
      Controller_UpdateTelemetry_eq]
    simp [Controller_SetState, coupled]
  | CONTROLLER_STATE_ERROR =>
    rw [Controller_Run_of_error sensors w hst, EngineInterface_Stop_eq,
      Controller_UpdateTelemetry_eq]
    simp [hst, coupled]

theorem Op_apply_coupled (o : Op)
    (hc : coupled w.current_state w.current_status = true)
    (ht : w.current_throttle = F32.fin 0) :
    coupled (Op.apply sensors o w).current_state (Op.apply sensors o w).current_status = true ∧
    (Op.apply sensors o w).current_throttle = F32.fin 0 := by
  cases o with
  | Run => exact Controller_Run_coupled sensors w hc ht
  | Arm =>
    simp only [Op.apply, Controller_Arm]
    split
    · rename_i hst
      rw [hst] at hc
      cases hss : w.current_status <;> rw [hss] at hc <;> simp [coupled] at hc <;>
        simp [Controller_SetState, hss, ht, coupled]
    · exact ⟨hc, ht⟩
  | Disarm =>
    simp only [Op.apply, Controller_Disarm]
    split
    · rename_i hst
      rw [hst] at hc
      cases hss : w.current_status <;> rw [hss] at hc <;> simp [coupled] at hc <;>
        simp [Controller_SetState, hss, ht, coupled]
    · exact ⟨hc, ht⟩
  | StartEngine =>
    simp only [Op.apply, Controller_StartEngine]
    split
    · rw [EngineInterface_Start_eq]
      cases (EngineInterface_CheckSafety sensors w).1 <;>
        simp [Controller_SetState, ht, coupled]
    · exact ⟨hc, ht⟩
  | StopEngine =>
    simp only [Op.apply, Controller_StopEngine]
    split
    · rename_i hst
      rw [hst] at hc
      cases hss : w.current_status <;> rw [hss] at hc <;> simp [coupled] at hc <;>
        simp [Controller_SetState, hss, ht, coupled]
    · exact ⟨hc, ht⟩
  | EmergencyShutdown =>
    simp [Op.apply, Controller_EmergencyShutdown, Controller_SetState, EngineInterface_Stop_eq,
      coupled]
  | SetConfig c => cases c <;> exact ⟨hc, ht⟩
  | GetConfig out => cases out <;> exact ⟨hc, ht⟩

theorem runOps_coupled (ops : List Op)
    (hc : coupled w.current_state w.current_status = true)
    (ht : w.current_throttle = F32.fin 0) :
    coupled (runOps sensors ops w).current_state (runOps sensors ops w).current_status = true ∧
    (runOps sensors ops w).current_throttle = F32.fin 0 := by
  induction ops generalizing w with
  | nil => exact ⟨hc, ht⟩
  | cons o ops ih =>
    exact ih (Op.apply sensors o w) (Op_apply_coupled sensors w o hc ht).1
      (Op_apply_coupled sensors w o hc ht).2

theorem F32_gt_false_of_le_right (t a b : F32)
    (h : F32.gt t a = false) (hab : F32.le a b = true) : F32.gt t b = false := by
  cases t <;> cases a <;> cases b <;> simp_all [F32.gt, F32.le]
  exact le_trans h hab

theorem F32_gt_false_of_le_left (t u a : F32)
    (h : F32.gt t a = false) (hut : F32.le u t = true) : F32.gt u a = false := by
  cases t <;> cases u <;> cases a <;> simp_all [F32.gt, F32.le]
  exact le_trans hut h

theorem Controller_CheckSystemHealth_steady_fst (s : SensorData_t) :
    (Controller_CheckSystemHealth (steady s) w).1 =
      (!(F32.gt s.temperature (F32.fin 200)) && !(F32.gt s.pressure (F32.fin 100)) &&
       !(F32.gt s.temperature w.config.max_temperature) &&
       !(F32.gt s.pressure w.config.max_pressure)) := by
  simp only [Controller_CheckSystemHealth_fst, EngineInterface_CheckSafety_fst, steady]

theorem Controller_Run_gpio :
    (Controller_Run sensors w).gpio =
      w.gpio ++
        match w.current_state with
        | CONTROLLER_STATE_IGNITION =>
          [{ port := 0, pin := 10, state := 1 }, { port := 0, pin := 10, state := 0 }]
        | CONTROLLER_STATE_RUNNING =>
          if (Controller_CheckSystemHealth sensors (Controller_UpdateTelemetry sensors w)).1
          then []
          else [{ port := 0, pin := 0, state := 0 }, { port := 0, pin := 1, state := 0 }]
        | CONTROLLER_STATE_SHUTDOWN =>
          [{ port := 0, pin := 0, state := 0 }, { port := 0, pin := 1, state := 0 }]
        | CONTROLLER_STATE_ERROR =>
          [{ port := 0, pin := 0, state := 0 }, { port := 0, pin := 1, state := 0 }]
        | _ => [] := by
  have hsnd := Controller_CheckSystemHealth_snd sensors (Controller_UpdateTelemetry sensors w)
  cases hst : w.current_state with
  | CONTROLLER_STATE_INIT =>
    rw [Controller_Run_of_init sensors w hst, Controller_UpdateTelemetry_eq]
    simp [Controller_SetState]
  | CONTROLLER_STATE_IDLE =>
    rw [Controller_Run_of_idle sensors w hst, Controller_UpdateTelemetry_eq]
    simp
  | CONTROLLER_STATE_PREFLIGHT_CHECK =>
    rw [Controller_Run_of_preflight sensors w hst, hsnd, Controller_UpdateTelemetry_eq]
    split <;> simp [Controller_SetState]
  | CONTROLLER_STATE_ARMED =>
    rw [Controller_Run_of_armed sensors w hst, Controller_UpdateTelemetry_eq]
    simp
  | CONTROLLER_STATE_IGNITION =>
    rw [Controller_Run_of_ignition sensors w hst, EngineInterface_TriggerIgnition_eq,
      Controller_UpdateTelemetry_eq]
    simp [Controller_SetState]
  | CONTROLLER_STATE_RUNNING =>
    rw [Controller_Run_of_running sensors w hst, hsnd, Controller_UpdateTelemetry_eq]
    split <;>
      simp [Controller_EmergencyShutdown, Controller_SetState, EngineInterface_Stop_eq]
  | CONTROLLER_STATE_SHUTDOWN =>
    rw [Controller_Run_of_shutdown sensors w hst, EngineInterface_Stop_eq,
      Controller_UpdateTelemetry_eq]
    simp [Controller_SetState]
  | CONTROLLER_STATE_ERROR =>
    rw [Controller_Run_of_error sensors w hst, EngineInterface_Stop_eq,
      Controller_UpdateTelemetry_eq]

theorem Controller_Run_pulse_iff :
    (Controller_Run sensors w).gpio =
        w.gpio ++ [{ port := 0, pin := 10, state := 1 }, { port := 0, pin := 10, state := 0 }] ↔
      w.current_state = CONTROLLER_STATE_IGNITION := by
  rw [Controller_Run_gpio, List.append_right_inj]
  cases w.current_state <;> simp
  split <;> simp

end Lemmas

/-! ## Command guards -/

/-- C1: for every controller state, `Controller_Arm` returns true iff the state is `IDLE`, and from
`IDLE` it returns true and the new state is `PREFLIGHT_CHECK`; `Controller_Disarm` returns true iff
the state is `ARMED`, and from `ARMED` it returns true and the new state is `IDLE`;
`Controller_StartEngine` returns true iff the state is `ARMED`, and from `ARMED` it returns true
and the new state is `IGNITION`; `Controller_StopEngine` returns true iff the state is `RUNNING`,
and from `RUNNING` it returns true and the new state is `SHUTDOWN`. -/
theorem command_guard_table (sensors : Nat → SensorData_t) (w : System) :
    (((Controller_Arm w).1 = true ↔ w.current_state = CONTROLLER_STATE_IDLE) ∧
     (w.current_state = CONTROLLER_STATE_IDLE →
       (Controller_Arm w).1 = true ∧
       (Controller_Arm w).2.current_state = CONTROLLER_STATE_PREFLIGHT_CHECK)) ∧
    (((Controller_Disarm w).1 = true ↔ w.current_state = CONTROLLER_STATE_ARMED) ∧
     (w.current_state = CONTROLLER_STATE_ARMED →
       (Controller_Disarm w).1 = true ∧
       (Controller_Disarm w).2.current_state = CONTROLLER_STATE_IDLE)) ∧
    (((Controller_StartEngine sensors w).1 = true ↔ w.current_state = CONTROLLER_STATE_ARMED) ∧
     (w.current_state = CONTROLLER_STATE_ARMED →
       (Controller_StartEngine sensors w).1 = true ∧
       (Controller_StartEngine sensors w).2.current_state = CONTROLLER_STATE_IGNITION)) ∧
    (((Controller_StopEngine w).1 = true ↔ w.current_state = CONTROLLER_STATE_RUNNING) ∧
     (w.current_state = CONTROLLER_STATE_RUNNING →
       (Controller_StopEngine w).1 = true ∧
       (Controller_StopEngine w).2.current_state = CONTROLLER_STATE_SHUTDOWN)) := by
  refine ⟨⟨?_, ?_⟩, ⟨?_, ?_⟩, ⟨?_, ?_⟩, ⟨?_, ?_⟩⟩
  · unfold Controller_Arm
    by_cases h : w.current_state = CONTROLLER_STATE_IDLE <;> simp [h]
  · intro h
    simp [Controller_Arm, h, Controller_SetState]
  · unfold Controller_Disarm
    by_cases h : w.current_state = CONTROLLER_STATE_ARMED <;> simp [h]
  · intro h
    simp [Controller_Disarm, h, Controller_SetState]
  · unfold Controller_StartEngine
    by_cases h : w.current_state = CONTROLLER_STATE_ARMED <;> simp [h]
  · intro h
    simp [Controller_StartEngine, h, Controller_SetState]
  · unfold Controller_StopEngine
    by_cases h : w.current_state = CONTROLLER_STATE_RUNNING <;> simp [h]
  · intro h
    simp [Controller_StopEngine, h, Controller_SetState]

/-- C1, example: `Arm` succeeds on the freshly initialised (`IDLE`) system and gives
`PREFLIGHT_CHECK`; `Disarm` and `StartEngine` succeed on the armed system and give `IDLE` and
`IGNITION`; `StopEngine` succeeds on the running system and gives `SHUTDOWN`. -/
theorem command_guard_table_witness :
    ((Controller_Arm (Controller_Init power_on)).1 = true ∧
     (Controller_Arm (Controller_Init power_on)).2.current_state =
       CONTROLLER_STATE_PREFLIGHT_CHECK) ∧
    ((Controller_Disarm armed_system).1 = true ∧
     (Controller_Disarm armed_system).2.current_state = CONTROLLER_STATE_IDLE) ∧
    ((Controller_StartEngine (steady (reading 20 1)) armed_system).1 = true ∧
     (Controller_StartEngine (steady (reading 20 1)) armed_system).2.current_state =
       CONTROLLER_STATE_IGNITION) ∧
    ((Controller_StopEngine running_system).1 = true ∧
     (Controller_StopEngine running_system).2.current_state = CONTROLLER_STATE_SHUTDOWN) :=
  ⟨(command_guard_table (steady (reading 20 1)) (Controller_Init power_on)).1.2 (by decide),
   (command_guard_table (steady (reading 20 1)) armed_system).2.1.2 (by decide),
   (command_guard_table (steady (reading 20 1)) armed_system).2.2.1.2 (by decide),
   (command_guard_table (steady (reading 20 1)) running_system).2.2.2.2 (by decide)⟩

/-- C2: a command invoked from a state other than its guard state returns false and leaves the
whole system untouched: controller state, configuration, entry time, engine status, throttle,
the trace of GPIO commands and the number of sensor acquisitions. -/
theorem command_rejected_no_effect (sensors : Nat → SensorData_t) (w : System) :
    (w.current_state ≠ CONTROLLER_STATE_IDLE → Controller_Arm w = (false, w)) ∧
    (w.current_state ≠ CONTROLLER_STATE_ARMED → Controller_Disarm w = (false, w)) ∧
    (w.current_state ≠ CONTROLLER_STATE_ARMED → Controller_StartEngine sensors w = (false, w)) ∧
    (w.current_state ≠ CONTROLLER_STATE_RUNNING → Controller_StopEngine w = (false, w)) := by
  refine ⟨?_, ?_, ?_, ?_⟩
  · intro h
    simp [Controller_Arm, h]
  · intro h
    simp [Controller_Disarm, h]
  · intro h
    simp [Controller_StartEngine, h]
  · intro h
    simp [Controller_StopEngine, h]

/-- C2, example: `Arm` while `RUNNING` returns false and the system, still `RUNNING`, is unchanged;
so do `Disarm` and `StartEngine` there, and `StopEngine` from `ARMED`. -/
theorem command_rejected_no_effect_witness :
    running_system.current_state = CONTROLLER_STATE_RUNNING ∧
    Controller_Arm running_system = (false, running_system) ∧
    Controller_Disarm running_system = (false, running_system) ∧
    Controller_StartEngine (steady (reading 20 1)) running_system = (false, running_system) ∧
    Controller_StopEngine armed_system = (false, armed_system) :=
  ⟨by decide,
   (command_rejected_no_effect (steady (reading 20 1)) running_system).1 (by decide),
   (command_rejected_no_effect (steady (reading 20 1)) running_system).2.1 (by decide),
   (command_rejected_no_effect (steady (reading 20 1)) running_system).2.2.1 (by decide),
   (command_rejected_no_effect (steady (reading 20 1)) armed_system).2.2.2 (by decide)⟩

/-! ## Health and safety predicates -/

/-- C3, as stated, fails: with the temperature limit set to NaN and a reading of 0 degrees C and
0 bar, `Controller_CheckSystemHealth` returns true although `0 <= NaN` is false. -/
theorem health_le_fails_on_nan_limit :
    (Controller_CheckSystemHealth (steady (reading 0 0))
        (Controller_SetConfig (some nan_limit_config) armed_system)).1 = true ∧
    F32.le (steady (reading 0 0) armed_system.acquisitions).temperature
        (Controller_SetConfig (some nan_limit_config) armed_system).config.max_temperature = false ∧
    ¬ ((Controller_CheckSystemHealth (steady (reading 0 0))
          (Controller_SetConfig (some nan_limit_config) armed_system)).1 = true ↔
        ((EngineInterface_CheckSafety (steady (reading 0 0))
            (Controller_SetConfig (some nan_limit_config) armed_system)).1 = true ∧
         F32.le (reading 0 0).temperature nan_limit_config.max_temperature = true ∧
         F32.le (reading 0 0).pressure nan_limit_config.max_pressure = true)) := by
  decide

/-- C3, amended: when both internal reads return the same snapshot, `Controller_CheckSystemHealth`
returns true iff `EngineInterface_CheckSafety` is true and neither `chamber_temperature >
config.max_temperature` nor `chamber_pressure > config.max_pressure` holds.  When none of the two
readings and two limits is NaN this is `chamber_temperature <= config.max_temperature` and
`chamber_pressure <= config.max_pressure`.  A temperature equal to the limit passes (the other
conditions holding) and a temperature above the limit fails. -/
theorem health_check_characterisation (sensors : Nat → SensorData_t) (w : System)
    (hsame : sensors (w.acquisitions + 1) = sensors w.acquisitions) :
    ((Controller_CheckSystemHealth sensors w).1 = true ↔
      ((EngineInterface_CheckSafety sensors w).1 = true ∧
       F32.gt (sensors w.acquisitions).temperature w.config.max_temperature = false ∧
       F32.gt (sensors w.acquisitions).pressure w.config.max_pressure = false)) ∧
    ((sensors w.acquisitions).temperature.isNaN = false →
     (sensors w.acquisitions).pressure.isNaN = false →
     w.config.max_temperature.isNaN = false →
     w.config.max_pressure.isNaN = false →
      ((Controller_CheckSystemHealth sensors w).1 = true ↔
        ((EngineInterface_CheckSafety sensors w).1 = true ∧
         F32.le (sensors w.acquisitions).temperature w.config.max_temperature = true ∧
         F32.le (sensors w.acquisitions).pressure w.config.max_pressure = true))) ∧
    ((sensors w.acquisitions).temperature = w.config.max_temperature →
     (EngineInterface_CheckSafety sensors w).1 = true →
     F32.gt (sensors w.acquisitions).pressure w.config.max_pressure = false →
      (Controller_CheckSystemHealth sensors w).1 = true) ∧
    (F32.gt (sensors w.acquisitions).temperature w.config.max_temperature = true →
      (Controller_CheckSystemHealth sensors w).1 = false) := by
  have key := Controller_CheckSystemHealth_fst sensors w
  rw [hsame] at key
  refine ⟨?_, ?_, ?_, ?_⟩
  · rw [key]
    simp [and_assoc]
  · intro h1 h2 h3 h4
    rw [key, F32_le_eq_not_gt _ _ h1 h3, F32_le_eq_not_gt _ _ h2 h4]
    simp [and_assoc]
  · intro ht hs hp
    rw [key, hs, hp, ht, F32_gt_irrefl]
    rfl
  · intro ht
    rw [key, ht]
    simp

/-- C3, example: under the default limits (180 degrees C, 80 bar) a steady reading of exactly
180 degrees C and 1 bar passes the health check, and a steady reading of 181 degrees C fails. -/
theorem health_check_characterisation_witness :
    (Controller_CheckSystemHealth (steady (reading 180 1)) armed_system).1 = true ∧
    (Controller_CheckSystemHealth (steady (reading 181 1)) armed_system).1 = false :=
  ⟨(health_check_characterisation (steady (reading 180 1)) armed_system rfl).2.2.1
      (by decide) (by decide) (by decide),
   (health_check_characterisation (steady (reading 181 1)) armed_system rfl).2.2.2 (by decide)⟩

/-- C4: `EngineInterface_CheckSafety` returns false iff the snapshot it reads has
`temperature > 200` or `pressure > 100`; a snapshot of exactly 200 degrees C and 100 bar is safe;
the engine status and the throttle (and everything but the acquisition count) are unchanged. -/
theorem check_safety_hard_ceilings (sensors : Nat → SensorData_t) (w : System) :
    ((EngineInterface_CheckSafety sensors w).1 = false ↔
      (F32.gt (sensors w.acquisitions).temperature (F32.fin 200) = true ∨
       F32.gt (sensors w.acquisitions).pressure (F32.fin 100) = true)) ∧
    ((sensors w.acquisitions).temperature = F32.fin 200 →
     (sensors w.acquisitions).pressure = F32.fin 100 →
      (EngineInterface_CheckSafety sensors w).1 = true) ∧
    (EngineInterface_CheckSafety sensors w).2.current_status = w.current_status ∧
    (EngineInterface_CheckSafety sensors w).2.current_throttle = w.current_throttle ∧
    (EngineInterface_CheckSafety sensors w).2 = { w with acquisitions := w.acquisitions + 1 } := by
  refine ⟨?_, ?_, ?_, ?_, ?_⟩
  · rw [EngineInterface_CheckSafety_fst]
    cases F32.gt (sensors w.acquisitions).temperature (F32.fin 200) <;>
      cases F32.gt (sensors w.acquisitions).pressure (F32.fin 100) <;> simp
  · intro ht hp
    rw [EngineInterface_CheckSafety_fst, ht, hp, F32_gt_irrefl]
    rfl
  · rw [EngineInterface_CheckSafety_snd]
  · rw [EngineInterface_CheckSafety_snd]
  · rw [EngineInterface_CheckSafety_snd]

/-- C4, example: a steady reading of exactly 200 degrees C and 100 bar is reported safe. -/
theorem check_safety_hard_ceilings_witness :
    (EngineInterface_CheckSafety (steady (reading 200 100)) armed_system).1 = true :=
  (check_safety_hard_ceilings (steady (reading 200 100)) armed_system).2.1 rfl rfl

/-- C5: the verdict of `EngineInterface_CheckSafety` is the same under any two configurations
installed with `Controller_SetConfig`; and under every configuration a reading of 250 degrees C
makes both `EngineInterface_CheckSafety` and `Controller_CheckSystemHealth` return false. -/
theorem check_safety_ignores_config (sensors : Nat → SensorData_t) (w : System)
    (c1 c2 : ControllerConfig_t) :
    (EngineInterface_CheckSafety sensors (Controller_SetConfig (some c1) w)).1 =
      (EngineInterface_CheckSafety sensors (Controller_SetConfig (some c2) w)).1 ∧
    ((sensors w.acquisitions).temperature = F32.fin 250 →
      (EngineInterface_CheckSafety sensors (Controller_SetConfig (some c1) w)).1 = false ∧
      (Controller_CheckSystemHealth sensors (Controller_SetConfig (some c1) w)).1 = false) := by
  refine ⟨?_, ?_⟩
  · simp [EngineInterface_CheckSafety_fst, Controller_SetConfig]
  · intro ht
    have hgt : F32.gt (F32.fin 250) (F32.fin 200) = true := by decide
    have hs : (EngineInterface_CheckSafety sensors (Controller_SetConfig (some c1) w)).1 = false := by
      simp [EngineInterface_CheckSafety_fst, Controller_SetConfig, ht, hgt]
    refine ⟨hs, ?_⟩
    rw [Controller_CheckSystemHealth_fst, hs]
    rfl

/-- C5, example: with `max_temperature` raised to 1000, a reading of 250 degrees C still fails the
engine-model safety check and the controller health check. -/
theorem check_safety_ignores_config_witness :
    relaxed_config.max_temperature = F32.fin 1000 ∧
    (EngineInterface_CheckSafety (steady (reading 250 1))
        (Controller_SetConfig (some relaxed_config) armed_system)).1 = false ∧
    (Controller_CheckSystemHealth (steady (reading 250 1))
        (Controller_SetConfig (some relaxed_config) armed_system)).1 = false :=
  ⟨rfl, (check_safety_ignores_config (steady (reading 250 1)) armed_system
      relaxed_config default_config).2 rfl⟩

/-! ## Configured limits and hard ceilings -/

/-- C6, as stated, fails: at program start and after `Controller_Init` the configured limits are
180 degrees C and 80 bar, so neither `200 <= max_temperature` nor `100 <= max_pressure` holds. -/
theorem default_limits_below_ceilings :
    F32.le (F32.fin 200) (runApi (steady (reading 20 1)) [] power_on).config.max_temperature = false ∧
    F32.le (F32.fin 100) (runApi (steady (reading 20 1)) [] power_on).config.max_pressure = false ∧
    F32.le (F32.fin 200)
      (runApi (steady (reading 20 1)) [ApiCall.Init] power_on).config.max_temperature = false ∧
    F32.le (F32.fin 100)
      (runApi (steady (reading 20 1)) [ApiCall.Init] power_on).config.max_pressure = false := by
  decide

/-- C6, amended: in every state reached from program start through the functions of
`controller.h` without a `Controller_SetConfig` call carrying a non-NULL pointer, the
configuration is the default one, whose limits lie at or below the hard ceilings:
`max_temperature = 180 <= 200` and `max_pressure = 80 <= 100`.  `Controller_SetConfig` itself
installs whatever configuration it is given. -/
theorem default_limits_kept_below_ceilings (sensors : Nat → SensorData_t) (calls : List ApiCall)
    (h : ∀ c ∈ calls, c.installsConfig = false) :
    (runApi sensors calls power_on).config = default_config ∧
    F32.le (runApi sensors calls power_on).config.max_temperature (F32.fin 200) = true ∧
    F32.le (runApi sensors calls power_on).config.max_pressure (F32.fin 100) = true ∧
    (∀ (c : ControllerConfig_t) (w : System), (Controller_SetConfig (some c) w).config = c) := by
  have key : ∀ (cs : List ApiCall) (w : System), (∀ c ∈ cs, c.installsConfig = false) →
      (runApi sensors cs w).config = w.config := by
    intro cs
    induction cs with
    | nil =>
      intro w _
      rfl
    | cons c cs ih =>
      intro w hc
      have h1 : c.installsConfig = false := hc c (List.mem_cons_self c cs)
      have h2 : ∀ d ∈ cs, d.installsConfig = false :=
        fun d hd => hc d (List.mem_cons_of_mem c hd)
      show (runApi sensors cs (ApiCall.apply sensors c w)).config = w.config
      rw [ih _ h2, ApiCall_apply_config sensors w c h1]
  have hcfg : (runApi sensors calls power_on).config = default_config := key calls power_on h
  refine ⟨hcfg, ?_, ?_, ?_⟩
  · rw [hcfg]
    decide
  · rw [hcfg]
    decide
  · intro c w
    rfl

/-- C6, example: after `Controller_Init`, `Arm` and a `Run` cycle the limits are still the default
180 degrees C and 80 bar, below the ceilings of 200 degrees C and 100 bar. -/
theorem default_limits_kept_below_ceilings_witness :
    (runApi (steady (reading 20 1)) [ApiCall.Init, ApiCall.op Op.Arm, ApiCall.op Op.Run]
      power_on).config = default_config ∧
    F32.le (runApi (steady (reading 20 1)) [ApiCall.Init, ApiCall.op Op.Arm, ApiCall.op Op.Run]
      power_on).config.max_temperature (F32.fin 200) = true :=
  ⟨(default_limits_kept_below_ceilings (steady (reading 20 1))
      [ApiCall.Init, ApiCall.op Op.Arm, ApiCall.op Op.Run] (by decide)).1,
   (default_limits_kept_below_ceilings (steady (reading 20 1))
      [ApiCall.Init, ApiCall.op Op.Arm, ApiCall.op Op.Run] (by decide)).2.1⟩

/-! ## Emergency shutdown and the run cycle -/

/-- C7: from every system state, `Controller_EmergencyShutdown` ends with controller state `ERROR`,
engine status `SHUTDOWN` and throttle 0, appends the close commands `WritePin(0, 0, 0)` and
`WritePin(0, 1, 0)` for valves 0 and 1 to the GPIO trace, and leaves the configuration unchanged;
it reads no sensor. -/
theorem emergency_shutdown_effect (w : System) :
    (Controller_EmergencyShutdown w).current_state = CONTROLLER_STATE_ERROR ∧
    (Controller_EmergencyShutdown w).current_status = ENGINE_STATUS_SHUTDOWN ∧
    (Controller_EmergencyShutdown w).current_throttle = F32.fin 0 ∧
    (Controller_EmergencyShutdown w).gpio =
      w.gpio ++ [{ port := 0, pin := 0, state := 0 }, { port := 0, pin := 1, state := 0 }] ∧
    (Controller_EmergencyShutdown w).config = w.config ∧
    (Controller_EmergencyShutdown w).acquisitions = w.acquisitions := by
  simp [Controller_EmergencyShutdown, Controller_SetState, EngineInterface_Stop_eq]

/-- C8: one `Controller_Run` cycle takes at most one transition.  The controller state after the
cycle is: `INIT` to `IDLE`; `IDLE` stays; `PREFLIGHT_CHECK` to `ARMED` if
`Controller_CheckSystemHealth` (evaluated right after the telemetry refresh) returns true, else
`ERROR`; `ARMED` stays; `IGNITION` to `RUNNING`; `RUNNING` stays if `Controller_CheckSystemHealth`
returns true, else `ERROR`; `SHUTDOWN` to `IDLE`; `ERROR` stays. -/
theorem run_cycle_transition_table (sensors : Nat → SensorData_t) (w : System) :
    (Controller_Run sensors w).current_state =
      match w.current_state with
      | CONTROLLER_STATE_INIT => CONTROLLER_STATE_IDLE
      | CONTROLLER_STATE_IDLE => CONTROLLER_STATE_IDLE
      | CONTROLLER_STATE_PREFLIGHT_CHECK =>
        if (Controller_CheckSystemHealth sensors (Controller_UpdateTelemetry sensors w)).1
        then CONTROLLER_STATE_ARMED else CONTROLLER_STATE_ERROR
      | CONTROLLER_STATE_ARMED => CONTROLLER_STATE_ARMED
      | CONTROLLER_STATE_IGNITION => CONTROLLER_STATE_RUNNING
      | CONTROLLER_STATE_RUNNING =>
        if (Controller_CheckSystemHealth sensors (Controller_UpdateTelemetry sensors w)).1
        then CONTROLLER_STATE_RUNNING else CONTROLLER_STATE_ERROR
      | CONTROLLER_STATE_SHUTDOWN => CONTROLLER_STATE_IDLE
      | CONTROLLER_STATE_ERROR => CONTROLLER_STATE_ERROR :=
  Controller_Run_current_state sensors w

/-- C9: `ERROR` is absorbing.  If the controller state is `ERROR`, it is still `ERROR` after any
one of `Controller_Run`, `Arm`, `Disarm`, `StartEngine`, `StopEngine`, `EmergencyShutdown`,
`SetConfig` and `GetConfig`, whatever the sensor readings and arguments, and therefore after
every finite sequence of these operations. -/
theorem error_state_absorbing (sensors : Nat → SensorData_t) (w : System)
    (h : w.current_state = CONTROLLER_STATE_ERROR) :
    (∀ o : Op, (Op.apply sensors o w).current_state = CONTROLLER_STATE_ERROR) ∧
    (∀ ops : List Op, (runOps sensors ops w).current_state = CONTROLLER_STATE_ERROR) := by
  refine ⟨fun o => Op_apply_error sensors w o h, ?_⟩
  intro ops
  induction ops generalizing w with
  | nil => exact h
  | cons o ops ih => exact ih (Op.apply sensors o w) (Op_apply_error sensors w o h)

/-- C9, example: from the `ERROR` state reached by an emergency shutdown, a sequence running
through all eight operations leaves the controller in `ERROR`. -/
theorem error_state_absorbing_witness :
    error_system.current_state = CONTROLLER_STATE_ERROR ∧
    (runOps (steady (reading 20 1))
      [Op.Run, Op.Arm, Op.Disarm, Op.StartEngine, Op.StopEngine,
       Op.SetConfig (some relaxed_config), Op.GetConfig (some default_config),
       Op.EmergencyShutdown, Op.Run]
      error_system).current_state = CONTROLLER_STATE_ERROR :=
  ⟨by decide, (error_state_absorbing (steady (reading 20 1)) error_system (by decide)).2 _⟩

/-! ## Start on a breached ceiling -/

/-- C10, as stated, fails: with a steady reading of 250 degrees C, `Controller_StartEngine` from
`ARMED` leaves the engine in `FAULT` and the controller in `IGNITION`, and the very next
`Controller_Run` cycle moves the controller to `RUNNING`, not to `ERROR`. -/
theorem start_on_breach_next_cycle_is_running :
    armed_system.current_state = CONTROLLER_STATE_ARMED ∧
    F32.gt (reading 250 1).temperature (F32.fin 200) = true ∧
    (Controller_StartEngine (steady (reading 250 1)) armed_system).2.current_status =
      ENGINE_STATUS_FAULT ∧
    (Controller_Run (steady (reading 250 1))
      (Controller_StartEngine (steady (reading 250 1)) armed_system).2).current_state =
      CONTROLLER_STATE_RUNNING ∧
    (Controller_Run (steady (reading 250 1))
      (Controller_StartEngine (steady (reading 250 1)) armed_system).2).current_state ≠
      CONTROLLER_STATE_ERROR := by
  decide

/-- C10, amended: if `Controller_StartEngine` is invoked from `ARMED` while the reading breaches a
hard ceiling (`temperature > 200` or `pressure > 100`), it returns true, the engine status becomes
`FAULT` and the controller state becomes `IGNITION`, not `ERROR`; the next `Controller_Run` cycle
moves the controller to `RUNNING`; and the cycle after that, if the reading its safety check takes
still breaches a ceiling, moves the controller to `ERROR`. -/
theorem start_on_breach_escalates_in_two_cycles (sensors : Nat → SensorData_t) (w : System)
    (harmed : w.current_state = CONTROLLER_STATE_ARMED)
    (hstart : F32.gt (sensors w.acquisitions).temperature (F32.fin 200) = true ∨
      F32.gt (sensors w.acquisitions).pressure (F32.fin 100) = true)
    (hlater : F32.gt (sensors (w.acquisitions + 3)).temperature (F32.fin 200) = true ∨
      F32.gt (sensors (w.acquisitions + 3)).pressure (F32.fin 100) = true) :
    (Controller_StartEngine sensors w).1 = true ∧
    (Controller_StartEngine sensors w).2.current_status = ENGINE_STATUS_FAULT ∧
    (Controller_StartEngine sensors w).2.current_state = CONTROLLER_STATE_IGNITION ∧
    (Controller_Run sensors (Controller_StartEngine sensors w).2).current_state =
      CONTROLLER_STATE_RUNNING ∧
    (Controller_Run sensors
      (Controller_Run sensors (Controller_StartEngine sensors w).2)).current_state =
      CONTROLLER_STATE_ERROR := by
  have hunsafe : (EngineInterface_CheckSafety sensors w).1 = false := by
    rw [EngineInterface_CheckSafety_fst]
    rcases hstart with h | h <;> simp [h]
  have hs : Controller_StartEngine sensors w =
      (true, Controller_SetState CONTROLLER_STATE_IGNITION
        { w with acquisitions := w.acquisitions + 1, current_status := ENGINE_STATUS_FAULT }) := by
    simp [Controller_StartEngine, harmed, EngineInterface_Start, hunsafe,
      EngineInterface_CheckSafety_snd]
  have hrun1 : (Controller_Run sensors (Controller_StartEngine sensors w).2).current_state =
      CONTROLLER_STATE_RUNNING := by
    rw [Controller_Run_current_state, hs]
    rfl
  have hacq : (Controller_Run sensors (Controller_StartEngine sensors w).2).acquisitions =
      w.acquisitions + 2 := by
    rw [hs]
    rfl
  refine ⟨by rw [hs], by rw [hs]; rfl, by rw [hs]; rfl, hrun1, ?_⟩
  rw [Controller_Run_current_state, hrun1]
  have hunsafe2 : (Controller_CheckSystemHealth sensors (Controller_UpdateTelemetry sensors
      (Controller_Run sensors (Controller_StartEngine sensors w).2))).1 = false := by
    rw [Controller_CheckSystemHealth_fst, EngineInterface_CheckSafety_fst,
      Controller_UpdateTelemetry_eq]
    simp only [hacq]
    rcases hlater with h | h <;> simp [h]
  simp [hunsafe2]

/-- C10, example: from `ARMED` under a steady reading of 250 degrees C, `StartEngine` faults the
engine, the first `Run` cycle reaches `RUNNING` and the second `Run` cycle reaches `ERROR`. -/
theorem start_on_breach_escalates_in_two_cycles_witness :
    (Controller_StartEngine (steady (reading 250 1)) armed_system).2.current_status =
      ENGINE_STATUS_FAULT ∧
    (Controller_Run (steady (reading 250 1))
      (Controller_Run (steady (reading 250 1))
        (Controller_StartEngine (steady (reading 250 1)) armed_system).2)).current_state =
      CONTROLLER_STATE_ERROR :=
  ⟨(start_on_breach_escalates_in_two_cycles (steady (reading 250 1)) armed_system
      (by decide) (Or.inl (by decide)) (Or.inl (by decide))).2.1,
   (start_on_breach_escalates_in_two_cycles (steady (reading 250 1)) armed_system
      (by decide) (Or.inl (by decide)) (Or.inl (by decide))).2.2.2.2⟩

/-! ## Engine model operations -/

/-- C11: from every prior engine status and throttle and for every snapshot,
`EngineInterface_Start` leaves the engine status `RUNNING` when `EngineInterface_CheckSafety`
holds for the snapshot it reads and `FAULT` otherwise; the status after the call is never
`READY`; the throttle is unchanged. -/
theorem engine_start_status (sensors : Nat → SensorData_t) (w : System) :
    ((EngineInterface_CheckSafety sensors w).1 = true →
      (EngineInterface_Start sensors w).current_status = ENGINE_STATUS_RUNNING) ∧
    ((EngineInterface_CheckSafety sensors w).1 = false →
      (EngineInterface_Start sensors w).current_status = ENGINE_STATUS_FAULT) ∧
    (EngineInterface_Start sensors w).current_status ≠ ENGINE_STATUS_READY ∧
    (EngineInterface_Start sensors w).current_throttle = w.current_throttle := by
  rw [EngineInterface_Start_eq]
  cases h : (EngineInterface_CheckSafety sensors w).1 <;> simp

/-- C11, example: from the armed system (engine status `IDLE`), a start under 20 degrees C and
1 bar gives `RUNNING`, and a start under 250 degrees C gives `FAULT`. -/
theorem engine_start_status_witness :
    (EngineInterface_Start (steady (reading 20 1)) armed_system).current_status =
      ENGINE_STATUS_RUNNING ∧
    (EngineInterface_Start (steady (reading 250 1)) armed_system).current_status =
      ENGINE_STATUS_FAULT :=
  ⟨(engine_start_status (steady (reading 20 1)) armed_system).1 (by decide),
   (engine_start_status (steady (reading 250 1)) armed_system).2.1 (by decide)⟩

/-- C12, the code at a safe snapshot: `EngineInterface_Start` never appends to the GPIO trace.
Under 20 degrees C and 1 bar the safety check passes and the engine status becomes `RUNNING`,
yet no open-valve and no ignition command has been issued; under 250 degrees C the status
becomes `FAULT`, again with no command. -/
theorem engine_start_issues_no_command (sensors : Nat → SensorData_t) (w : System) :
    (EngineInterface_Start sensors w).gpio = w.gpio ∧
    (EngineInterface_CheckSafety (steady (reading 20 1)) armed_system).1 = true ∧
    (EngineInterface_Start (steady (reading 20 1)) armed_system).current_status =
      ENGINE_STATUS_RUNNING ∧
    (EngineInterface_Start (steady (reading 20 1)) armed_system).gpio = armed_system.gpio ∧
    (EngineInterface_Start (steady (reading 250 1)) armed_system).gpio = armed_system.gpio := by
  refine ⟨?_, by decide, by decide, by decide, by decide⟩
  rw [EngineInterface_Start_eq]

/-- C13: from every engine status and throttle, `EngineInterface_Stop` appends exactly the two
close commands `WritePin(0, 0, 0)` and `WritePin(0, 1, 0)` to the GPIO trace, sets the throttle
to 0 and the engine status to `SHUTDOWN`, and touches nothing else. -/
theorem engine_stop_effect (w : System) :
    (EngineInterface_Stop w).gpio =
      w.gpio ++ [{ port := 0, pin := 0, state := 0 }, { port := 0, pin := 1, state := 0 }] ∧
    (EngineInterface_Stop w).current_throttle = F32.fin 0 ∧
    (EngineInterface_Stop w).current_status = ENGINE_STATUS_SHUTDOWN ∧
    (EngineInterface_Stop w).current_state = w.current_state ∧
    (EngineInterface_Stop w).config = w.config ∧
    (EngineInterface_Stop w).acquisitions = w.acquisitions := by
  rw [EngineInterface_Stop_eq]
  exact ⟨rfl, rfl, rfl, rfl, rfl, rfl⟩

/-- C14: for every input `x` that is not NaN, the throttle `t` stored by
`EngineInterface_SetThrottle x` satisfies `0 <= t <= 100`; `t = x` when `0 <= x <= 100`, `t = 0`
when `x < 0` and `t = 100` when `x > 100`; the engine status is unchanged. -/
theorem set_throttle_clamps (x : F32) (w : System) (hx : x.isNaN = false) :
    F32.le (F32.fin 0) (EngineInterface_SetThrottle x w).current_throttle = true ∧
    F32.le (EngineInterface_SetThrottle x w).current_throttle (F32.fin 100) = true ∧
    (F32.le (F32.fin 0) x = true → F32.le x (F32.fin 100) = true →
      (EngineInterface_SetThrottle x w).current_throttle = x) ∧
    (F32.lt x (F32.fin 0) = true →
      (EngineInterface_SetThrottle x w).current_throttle = F32.fin 0) ∧
    (F32.gt x (F32.fin 100) = true →
      (EngineInterface_SetThrottle x w).current_throttle = F32.fin 100) ∧
    (EngineInterface_SetThrottle x w).current_status = w.current_status := by
  cases x with
  | nan => simp [F32.isNaN] at hx
  | ninf => simp [EngineInterface_SetThrottle, F32.lt, F32.gt, F32.le]
  | pinf => simp [EngineInterface_SetThrottle, F32.lt, F32.gt, F32.le]
  | fin q =>
    simp only [EngineInterface_SetThrottle, F32.lt, F32.gt, F32.le]
    by_cases h0 : q < 0
    · have h100 : ¬ (100 : ℚ) < q := by linarith
      simp [h0, h100, F32.le, F32.gt]
    · by_cases h100 : (100 : ℚ) < q
      · simp [h0, h100, F32.le, F32.gt]
      · simp [h0, h100, F32.le, F32.gt]

/-- C14, example: the inputs -10, 150 and 42.5 are stored as 0, 100 and 42.5. -/
theorem set_throttle_clamps_witness :
    (EngineInterface_SetThrottle (F32.fin (-10)) armed_system).current_throttle = F32.fin 0 ∧
    (EngineInterface_SetThrottle (F32.fin 150) armed_system).current_throttle = F32.fin 100 ∧
    (EngineInterface_SetThrottle (F32.fin 42.5) armed_system).current_throttle = F32.fin 42.5 :=
  ⟨(set_throttle_clamps (F32.fin (-10)) armed_system rfl).2.2.2.1 (by decide),
   (set_throttle_clamps (F32.fin 150) armed_system rfl).2.2.2.2.1 (by decide),
   (set_throttle_clamps (F32.fin 42.5) armed_system rfl).2.2.1
      (by norm_num [F32.le, F32.gt]) (by norm_num [F32.le, F32.gt])⟩

/-! ## Configuration and initialisation -/

/-- C15: for every configuration `X` and every prior system, `Controller_SetConfig(&X)` followed
by `Controller_GetConfig(&out)` stores exactly `X` in `out`; after `SetConfig` the whole
configuration is `X`; and neither call changes anything but the configuration (so the controller
state, the engine status and the throttle are unchanged). -/
theorem config_round_trip (X out : ControllerConfig_t) (w : System) :
    (Controller_GetConfig (some out) (Controller_SetConfig (some X) w)).1 = some X ∧
    (Controller_SetConfig (some X) w).config = X ∧
    Controller_SetConfig (some X) w = { w with config := X } ∧
    (Controller_GetConfig (some out) (Controller_SetConfig (some X) w)).2 =
      Controller_SetConfig (some X) w ∧
    (Controller_SetConfig (some X) w).current_state = w.current_state ∧
    (Controller_SetConfig (some X) w).current_status = w.current_status ∧
    (Controller_SetConfig (some X) w).current_throttle = w.current_throttle :=
  ⟨rfl, rfl, rfl, rfl, rfl, rfl, rfl⟩

/-- C16: from every prior engine status and throttle, `EngineInterface_Init` yields status `IDLE`
and throttle 0, touches nothing else, and running it twice gives the same system as running it
once. -/
theorem engine_init_idempotent_reset (w : System) :
    (EngineInterface_Init w).current_status = ENGINE_STATUS_IDLE ∧
    (EngineInterface_Init w).current_throttle = F32.fin 0 ∧
    EngineInterface_Init w =
      { w with current_status := ENGINE_STATUS_IDLE, current_throttle := F32.fin 0 } ∧
    EngineInterface_Init (EngineInterface_Init w) = EngineInterface_Init w :=
  ⟨rfl, rfl, rfl, rfl⟩

/-! ## End-to-end scenarios -/

/-- C17 (scenario 1): let the sensors return a steady snapshot for which
`Controller_CheckSystemHealth` holds under the current configuration.  Then after
`Controller_Init` the state is `IDLE`; `Arm` returns true and the state is `PREFLIGHT_CHECK`; one
`Run` cycle gives `ARMED`; `StartEngine` returns true and the state is `IGNITION`; the next `Run`
cycle gives `RUNNING`, with engine status `RUNNING`. -/
theorem scenario_nominal_start (s : SensorData_t) (w : System)
    (hhealth : (Controller_CheckSystemHealth (steady s) w).1 = true) :
    (Controller_Init w).current_state = CONTROLLER_STATE_IDLE ∧
    (Controller_Arm (Controller_Init w)).1 = true ∧
    (runOps (steady s) [Op.Arm] (Controller_Init w)).current_state =
      CONTROLLER_STATE_PREFLIGHT_CHECK ∧
    (runOps (steady s) [Op.Arm, Op.Run] (Controller_Init w)).current_state =
      CONTROLLER_STATE_ARMED ∧
    (Controller_StartEngine (steady s)
      (runOps (steady s) [Op.Arm, Op.Run] (Controller_Init w))).1 = true ∧
    (runOps (steady s) [Op.Arm, Op.Run, Op.StartEngine] (Controller_Init w)).current_state =
      CONTROLLER_STATE_IGNITION ∧
    (runOps (steady s) [Op.Arm, Op.Run, Op.StartEngine, Op.Run] (Controller_Init w)).current_state =
      CONTROLLER_STATE_RUNNING ∧
    (runOps (steady s) [Op.Arm, Op.Run, Op.StartEngine, Op.Run] (Controller_Init w)).current_status =
      ENGINE_STATUS_RUNNING := by
  have harm : Controller_Arm (Controller_Init w) =
      (true, Controller_SetState CONTROLLER_STATE_PREFLIGHT_CHECK (Controller_Init w)) := rfl
  have h1 : runOps (steady s) [Op.Arm] (Controller_Init w) =
      Controller_SetState CONTROLLER_STATE_PREFLIGHT_CHECK (Controller_Init w) := rfl
  have hh1 : (Controller_CheckSystemHealth (steady s) (Controller_UpdateTelemetry (steady s)
      (Controller_SetState CONTROLLER_STATE_PREFLIGHT_CHECK (Controller_Init w)))).1 = true := by
    exact (Controller_CheckSystemHealth_steady w s (Controller_UpdateTelemetry (steady s)
      (Controller_SetState CONTROLLER_STATE_PREFLIGHT_CHECK (Controller_Init w))) rfl).trans hhealth
  have h2 : runOps (steady s) [Op.Arm, Op.Run] (Controller_Init w) =
      Controller_SetState CONTROLLER_STATE_ARMED
        (Controller_CheckSystemHealth (steady s) (Controller_UpdateTelemetry (steady s)
          (Controller_SetState CONTROLLER_STATE_PREFLIGHT_CHECK (Controller_Init w)))).2 := by
    show Controller_Run (steady s)
      (Controller_SetState CONTROLLER_STATE_PREFLIGHT_CHECK (Controller_Init w)) = _
    rw [Controller_Run_of_preflight _ _ rfl, hh1]
    rfl
  have hs2 : (runOps (steady s) [Op.Arm, Op.Run] (Controller_Init w)).current_state =
      CONTROLLER_STATE_ARMED := by
    rw [h2]
    rfl
  have hstart : Controller_StartEngine (steady s)
      (runOps (steady s) [Op.Arm, Op.Run] (Controller_Init w)) =
      (true, Controller_SetState CONTROLLER_STATE_IGNITION
        (EngineInterface_Start (steady s)
          (runOps (steady s) [Op.Arm, Op.Run] (Controller_Init w)))) := by
    simp [Controller_StartEngine, hs2]
  have hsafe : (EngineInterface_CheckSafety (steady s)
      (runOps (steady s) [Op.Arm, Op.Run] (Controller_Init w))).1 = true := by
    exact (EngineInterface_CheckSafety_steady w s
      (runOps (steady s) [Op.Arm, Op.Run] (Controller_Init w))).trans
      (EngineInterface_CheckSafety_of_health (steady s) w hhealth)
  have h3 : runOps (steady s) [Op.Arm, Op.Run, Op.StartEngine] (Controller_Init w) =
      Controller_SetState CONTROLLER_STATE_IGNITION
        (EngineInterface_Start (steady s)
          (runOps (steady s) [Op.Arm, Op.Run] (Controller_Init w))) := by
    show (Controller_StartEngine (steady s)
      (runOps (steady s) [Op.Arm, Op.Run] (Controller_Init w))).2 = _
    rw [hstart]
  have hst3 : (runOps (steady s) [Op.Arm, Op.Run, Op.StartEngine]
      (Controller_Init w)).current_status = ENGINE_STATUS_RUNNING := by
    rw [h3, EngineInterface_Start_eq, hsafe]
    rfl
  have h4 : runOps (steady s) [Op.Arm, Op.Run, Op.StartEngine, Op.Run] (Controller_Init w) =
      Controller_SetState CONTROLLER_STATE_RUNNING
        (EngineInterface_TriggerIgnition (Controller_UpdateTelemetry (steady s)
          (runOps (steady s) [Op.Arm, Op.Run, Op.StartEngine] (Controller_Init w)))) := by
    show Controller_Run (steady s)
      (runOps (steady s) [Op.Arm, Op.Run, Op.StartEngine] (Controller_Init w)) = _
    rw [Controller_Run_of_ignition]
    rw [h3]
    rfl
  have hs1 : (runOps (steady s) [Op.Arm] (Controller_Init w)).current_state =
      CONTROLLER_STATE_PREFLIGHT_CHECK := by
    rw [h1]
    rfl
  have hr : (Controller_StartEngine (steady s)
      (runOps (steady s) [Op.Arm, Op.Run] (Controller_Init w))).1 = true := by
    rw [hstart]
  have hs3 : (runOps (steady s) [Op.Arm, Op.Run, Op.StartEngine]
      (Controller_Init w)).current_state = CONTROLLER_STATE_IGNITION := by
    rw [h3]
    rfl
  have hs4 : (runOps (steady s) [Op.Arm, Op.Run, Op.StartEngine, Op.Run]
      (Controller_Init w)).current_state = CONTROLLER_STATE_RUNNING := by
    rw [h4]
    rfl
  have hst4 : (runOps (steady s) [Op.Arm, Op.Run, Op.StartEngine, Op.Run]
      (Controller_Init w)).current_status = ENGINE_STATUS_RUNNING := by
    have hkeep : ∀ v : System, (Controller_SetState CONTROLLER_STATE_RUNNING
        (EngineInterface_TriggerIgnition (Controller_UpdateTelemetry (steady s) v))).current_status =
        v.current_status := fun _ => rfl
    rw [h4, hkeep]
    exact hst3
  have ha : (Controller_Arm (Controller_Init w)).1 = true := congrArg Prod.fst harm
  have hi : (Controller_Init w).current_state = CONTROLLER_STATE_IDLE := rfl
  exact ⟨hi, ha, hs1, hs2, hr, hs3, hs4, hst4⟩

/-- C17, example: from program start under a steady 20 degrees C and 1 bar, the sequence `Init`,
`Arm`, `Run`, `StartEngine`, `Run` ends in `RUNNING` with engine status `RUNNING`. -/
theorem scenario_nominal_start_witness :
    (runOps (steady (reading 20 1)) [Op.Arm, Op.Run, Op.StartEngine, Op.Run]
      (Controller_Init power_on)).current_state = CONTROLLER_STATE_RUNNING ∧
    (runOps (steady (reading 20 1)) [Op.Arm, Op.Run, Op.StartEngine, Op.Run]
      (Controller_Init power_on)).current_status = ENGINE_STATUS_RUNNING :=
  ⟨(scenario_nominal_start (reading 20 1) power_on (by decide)).2.2.2.2.2.2.1,
   (scenario_nominal_start (reading 20 1) power_on (by decide)).2.2.2.2.2.2.2⟩

/-- C19 (scenario 4): from controller state `RUNNING`, whatever the engine status, throttle and
readings, `StopEngine` returns true and the state is `SHUTDOWN`; the next `Run` cycle leaves the
controller in `IDLE` with engine status `SHUTDOWN` and throttle 0, having issued the close
commands for valves 0 and 1. -/
theorem scenario_stop_engine (sensors : Nat → SensorData_t) (w : System)
    (hrun : w.current_state = CONTROLLER_STATE_RUNNING) :
    (Controller_StopEngine w).1 = true ∧
    (Controller_StopEngine w).2.current_state = CONTROLLER_STATE_SHUTDOWN ∧
    (Controller_Run sensors (Controller_StopEngine w).2).current_state = CONTROLLER_STATE_IDLE ∧
    (Controller_Run sensors (Controller_StopEngine w).2).current_status =
      ENGINE_STATUS_SHUTDOWN ∧
    (Controller_Run sensors (Controller_StopEngine w).2).current_throttle = F32.fin 0 ∧
    (Controller_Run sensors (Controller_StopEngine w).2).gpio =
      w.gpio ++ [{ port := 0, pin := 0, state := 0 }, { port := 0, pin := 1, state := 0 }] := by
  have hstop : Controller_StopEngine w =
      (true, Controller_SetState CONTROLLER_STATE_SHUTDOWN w) := by
    simp [Controller_StopEngine, hrun]
  have hnext : Controller_Run sensors (Controller_StopEngine w).2 =
      Controller_SetState CONTROLLER_STATE_IDLE
        (EngineInterface_Stop (Controller_UpdateTelemetry sensors
          (Controller_SetState CONTROLLER_STATE_SHUTDOWN w))) := by
    rw [hstop]
    exact Controller_Run_of_shutdown sensors _ rfl
  refine ⟨by rw [hstop], by rw [hstop]; rfl, ?_, ?_, ?_, ?_⟩
  · rw [hnext]
    rfl
  · rw [hnext]
    rfl
  · rw [hnext]
    rfl
  · rw [hnext]
    simp [Controller_SetState, EngineInterface_Stop_eq, Controller_UpdateTelemetry_eq]

/-- C19, example: stopping the running system and running one cycle ends in `IDLE` with engine
status `SHUTDOWN` and throttle 0. -/
theorem scenario_stop_engine_witness :
    (Controller_StopEngine running_system).1 = true ∧
    (Controller_Run (steady (reading 20 1)) (Controller_StopEngine running_system).2).current_state =
      CONTROLLER_STATE_IDLE ∧
    (Controller_Run (steady (reading 20 1)) (Controller_StopEngine running_system).2).current_status =
      ENGINE_STATUS_SHUTDOWN ∧
    (Controller_Run (steady (reading 20 1))
      (Controller_StopEngine running_system).2).current_throttle = F32.fin 0 :=
  ⟨(scenario_stop_engine (steady (reading 20 1)) running_system (by decide)).1,
   (scenario_stop_engine (steady (reading 20 1)) running_system (by decide)).2.2.1,
   (scenario_stop_engine (steady (reading 20 1)) running_system (by decide)).2.2.2.1,
   (scenario_stop_engine (steady (reading 20 1)) running_system (by decide)).2.2.2.2.1⟩

/-! ## Parameter aggregation -/

/-- C20: called with a non-NULL pointer, `EngineInterface_GetParameters` fills the parameters
from the snapshot `s` it reads and the engine status `st`: `chamber_temperature = s.temperature`,
`chamber_pressure = s.pressure`, `fuel_flow_rate = s.flow_rate`, `oxidizer_flow_rate =
s.flow_rate * 0.8f`, `thrust = s.pressure * 10.0f` and `status = st`, the two products being
`float` products.  For a finite flow `f` the oxidizer flow is `f * 13421773 / 16777216` rounded to
binary32, for a finite pressure `a` the thrust is `a * 10` rounded to binary32, which is `a * 10`
itself whenever that is a binary32 value.  The engine status and the throttle are unchanged; only
the acquisition count moves. -/
theorem get_parameters_derived_read (sensors : Nat → SensorData_t) (p : EngineParams_t)
    (w : System) :
    (EngineInterface_GetParameters sensors (some p) w).1 =
      some { chamber_temperature := (sensors w.acquisitions).temperature
             chamber_pressure := (sensors w.acquisitions).pressure
             fuel_flow_rate := (sensors w.acquisitions).flow_rate
             oxidizer_flow_rate := F32.mul (sensors w.acquisitions).flow_rate ratio_0_8f
             thrust := F32.mul (sensors w.acquisitions).pressure (F32.fin 10)
             status := w.current_status } ∧
    (∀ f : ℚ, (sensors w.acquisitions).flow_rate = F32.fin f →
      (EngineInterface_GetParameters sensors (some p) w).1.map EngineParams_t.oxidizer_flow_rate =
        some (F32.round32 (f * (13421773 / 16777216)))) ∧
    (∀ a : ℚ, (sensors w.acquisitions).pressure = F32.fin a →
      (EngineInterface_GetParameters sensors (some p) w).1.map EngineParams_t.thrust =
        some (F32.round32 (a * 10))) ∧
    (∀ a : ℚ, (sensors w.acquisitions).pressure = F32.fin a →
      F32.isBinary32 (F32.fin (a * 10)) = true →
      (EngineInterface_GetParameters sensors (some p) w).1.map EngineParams_t.thrust =
        some (F32.fin (a * 10))) ∧
    (EngineInterface_GetParameters sensors (some p) w).2.current_status = w.current_status ∧
    (EngineInterface_GetParameters sensors (some p) w).2.current_throttle = w.current_throttle ∧
    (EngineInterface_GetParameters sensors (some p) w).2 =
      { w with acquisitions := w.acquisitions + 1 } := by
  rw [EngineInterface_GetParameters_some]
  refine ⟨rfl, ?_, ?_, ?_, rfl, rfl, rfl⟩
  · intro f hf
    simp [hf, ratio_0_8f_value, F32.mul]
  · intro a ha
    simp [ha, factor_10f, F32.mul]
  · intro a ha hb
    simp [ha, factor_10f, F32_mul_fin_exact a 10 hb]

/-- C20, example: for a snapshot with 1 bar and a flow of 5 L/s, read while the engine status is
`IDLE`, the thrust is 10 and the oxidizer flow is the binary32 rounding of
`5 * 13421773 / 16777216`. -/
theorem get_parameters_derived_read_witness :
    (EngineInterface_GetParameters (steady (reading_with_flow 20 1 5)) (some default)
        armed_system).1.map EngineParams_t.thrust = some (F32.fin (1 * 10)) ∧
    (EngineInterface_GetParameters (steady (reading_with_flow 20 1 5)) (some default)
        armed_system).1.map EngineParams_t.oxidizer_flow_rate =
      some (F32.round32 (5 * (13421773 / 16777216))) :=
  ⟨(get_parameters_derived_read (steady (reading_with_flow 20 1 5)) default armed_system).2.2.2.1
      1 rfl (by decide!),
   (get_parameters_derived_read (steady (reading_with_flow 20 1 5)) default armed_system).2.1
      5 rfl⟩

/-! ## Ignition -/

/-- C21: `EngineInterface_TriggerIgnition` appends exactly two commands to the GPIO trace, both on
port 0, pin 10: first state 1 (assert), then state 0 (de-assert); the last command on the trace is
therefore the de-assert; the engine status, the throttle and everything else are unchanged. -/
theorem trigger_ignition_pulse (w : System) :
    (EngineInterface_TriggerIgnition w).gpio =
      w.gpio ++ [{ port := 0, pin := 10, state := 1 }, { port := 0, pin := 10, state := 0 }] ∧
    (EngineInterface_TriggerIgnition w).gpio.getLast? =
      some { port := 0, pin := 10, state := 0 } ∧
    (EngineInterface_TriggerIgnition w).current_status = w.current_status ∧
    (EngineInterface_TriggerIgnition w).current_throttle = w.current_throttle ∧
    EngineInterface_TriggerIgnition w =
      { w with gpio := w.gpio ++
          [{ port := 0, pin := 10, state := 1 }, { port := 0, pin := 10, state := 0 }] } := by
  rw [EngineInterface_TriggerIgnition_eq]
  refine ⟨rfl, ?_, rfl, rfl, rfl⟩
  simp [List.getLast?_append]

/-- C22, as stated, fails: from program start, `Init`, `Arm` and a `Run` cycle under
nominal readings reach `ARMED`; `StartEngine` then reads 250 degrees C, so the engine status is
`FAULT` and the controller state `IGNITION`; the next `Run` cycle pulses the ignition line
(`WritePin(0, 10, 1)`, `WritePin(0, 10, 0)`) although the engine status is `FAULT`, and moves the
controller to `RUNNING`. -/
theorem ignition_pulsed_on_faulted_engine :
    (runOps overheating_sensors [Op.Arm, Op.Run] (Controller_Init power_on)).current_state =
      CONTROLLER_STATE_ARMED ∧
    (runOps overheating_sensors [Op.Arm, Op.Run, Op.StartEngine]
      (Controller_Init power_on)).current_state = CONTROLLER_STATE_IGNITION ∧
    (runOps overheating_sensors [Op.Arm, Op.Run, Op.StartEngine]
      (Controller_Init power_on)).current_status = ENGINE_STATUS_FAULT ∧
    (runOps overheating_sensors [Op.Arm, Op.Run, Op.StartEngine]
      (Controller_Init power_on)).gpio = [] ∧
    (runOps overheating_sensors [Op.Arm, Op.Run, Op.StartEngine, Op.Run]
      (Controller_Init power_on)).gpio =
      [{ port := 0, pin := 10, state := 1 }, { port := 0, pin := 10, state := 0 }] ∧
    (runOps overheating_sensors [Op.Arm, Op.Run, Op.StartEngine, Op.Run]
      (Controller_Init power_on)).current_status = ENGINE_STATUS_FAULT ∧
    (runOps overheating_sensors [Op.Arm, Op.Run, Op.StartEngine, Op.Run]
      (Controller_Init power_on)).current_state = CONTROLLER_STATE_RUNNING := by
  decide

/-- C22, amended: a `Controller_Run` cycle appends the ignition pulse (`WritePin(0, 10, 1)`,
`WritePin(0, 10, 0)`) exactly when the controller state is `IGNITION`, whatever the engine status;
and in every state reached from `Controller_Init` by a finite sequence of operations under
arbitrary sensor readings, the engine status at the moment of such a pulse is `RUNNING` or
`FAULT`, never `IDLE`, `READY` or `SHUTDOWN`. -/
theorem ignition_pulse_engine_status (sensors : Nat → SensorData_t) (w0 : System)
    (ops : List Op) :
    (∀ w : System,
      (Controller_Run sensors w).gpio =
          w.gpio ++ [{ port := 0, pin := 10, state := 1 }, { port := 0, pin := 10, state := 0 }] ↔
        w.current_state = CONTROLLER_STATE_IGNITION) ∧
    ((Controller_Run sensors (runOps sensors ops (Controller_Init w0))).gpio =
        (runOps sensors ops (Controller_Init w0)).gpio ++
          [{ port := 0, pin := 10, state := 1 }, { port := 0, pin := 10, state := 0 }] →
      ((runOps sensors ops (Controller_Init w0)).current_status = ENGINE_STATUS_RUNNING ∨
       (runOps sensors ops (Controller_Init w0)).current_status = ENGINE_STATUS_FAULT)) := by
  refine ⟨fun w => Controller_Run_pulse_iff sensors w, ?_⟩
  intro hpulse
  have hst := (Controller_Run_pulse_iff sensors _).1 hpulse
  have hinit : coupled (Controller_Init w0).current_state (Controller_Init w0).current_status =
      true := rfl
  have hthr : (Controller_Init w0).current_throttle = F32.fin 0 := rfl
  have hc := (runOps_coupled sensors (Controller_Init w0) ops hinit hthr).1
  rw [hst] at hc
  cases hss : (runOps sensors ops (Controller_Init w0)).current_status <;>
    rw [hss] at hc <;> simp [coupled] at hc <;> simp

/-- C22, example: after `Init`, `Arm`, `Run` and `StartEngine` under nominal readings the next
`Run` cycle pulses the ignition line, and the engine status at that moment is `RUNNING`. -/
theorem ignition_pulse_engine_status_witness :
    (runOps (steady (reading 20 1)) [Op.Arm, Op.Run, Op.StartEngine]
      (Controller_Init power_on)).current_status = ENGINE_STATUS_RUNNING ∨
    (runOps (steady (reading 20 1)) [Op.Arm, Op.Run, Op.StartEngine]
      (Controller_Init power_on)).current_status = ENGINE_STATUS_FAULT :=
  (ignition_pulse_engine_status (steady (reading 20 1)) power_on
    [Op.Arm, Op.Run, Op.StartEngine]).2 (by decide)

/-! ## Coupling of controller state and engine status -/

/-- C23: in every state reached from `Controller_Init` (run on any prior system) by a finite
sequence of `Run`, `Arm`, `Disarm`, `StartEngine`, `StopEngine`, `EmergencyShutdown`, `SetConfig`
(and `GetConfig`) under arbitrary sensor readings: (i) the engine status is not `READY`;
(ii) if the controller state is `IGNITION` or `RUNNING`, the engine status is `RUNNING` or
`FAULT`; (iii) if the controller state is `IDLE`, `PREFLIGHT_CHECK`, `ARMED` or `ERROR`, the engine
status is `IDLE` or `SHUTDOWN`; (iv) the throttle is 0. -/
theorem reachable_states_coupling (sensors : Nat → SensorData_t) (w0 : System) (ops : List Op) :
    (runOps sensors ops (Controller_Init w0)).current_status ≠ ENGINE_STATUS_READY ∧
    (((runOps sensors ops (Controller_Init w0)).current_state = CONTROLLER_STATE_IGNITION ∨
      (runOps sensors ops (Controller_Init w0)).current_state = CONTROLLER_STATE_RUNNING) →
     ((runOps sensors ops (Controller_Init w0)).current_status = ENGINE_STATUS_RUNNING ∨
      (runOps sensors ops (Controller_Init w0)).current_status = ENGINE_STATUS_FAULT)) ∧
    (((runOps sensors ops (Controller_Init w0)).current_state = CONTROLLER_STATE_IDLE ∨
      (runOps sensors ops (Controller_Init w0)).current_state = CONTROLLER_STATE_PREFLIGHT_CHECK ∨
      (runOps sensors ops (Controller_Init w0)).current_state = CONTROLLER_STATE_ARMED ∨
      (runOps sensors ops (Controller_Init w0)).current_state = CONTROLLER_STATE_ERROR) →
     ((runOps sensors ops (Controller_Init w0)).current_status = ENGINE_STATUS_IDLE ∨
      (runOps sensors ops (Controller_Init w0)).current_status = ENGINE_STATUS_SHUTDOWN)) ∧
    (runOps sensors ops (Controller_Init w0)).current_throttle = F32.fin 0 := by
  have hinit : coupled (Controller_Init w0).current_state (Controller_Init w0).current_status =
      true := rfl
  have hthr : (Controller_Init w0).current_throttle = F32.fin 0 := rfl
  have h := runOps_coupled sensors (Controller_Init w0) ops hinit hthr
  refine ⟨?_, ?_, ?_, h.2⟩
  · intro hs
    have hc := h.1
    rw [hs] at hc
    cases hst : (runOps sensors ops (Controller_Init w0)).current_state <;>
      rw [hst] at hc <;> simp [coupled] at hc
  · intro hst
    have hc := h.1
    rcases hst with hst | hst <;> rw [hst] at hc <;>
      cases hss : (runOps sensors ops (Controller_Init w0)).current_status <;>
      rw [hss] at hc <;> simp [coupled] at hc <;> simp
  · intro hst
    have hc := h.1
    rcases hst with hst | hst | hst | hst <;> rw [hst] at hc <;>
      cases hss : (runOps sensors ops (Controller_Init w0)).current_status <;>
      rw [hss] at hc <;> simp [coupled] at hc <;> simp

/-- C23, example: after `Init`, `Arm`, `Run`, `StartEngine` with the reading turning to 250 degrees
C at the start, the controller is in `IGNITION` and the engine status is `FAULT`, one of the two
values allowed there; after two more `Run` cycles the controller is in `ERROR` and the engine
status is `SHUTDOWN`. -/
theorem reachable_states_coupling_witness :
    ((runOps overheating_sensors [Op.Arm, Op.Run, Op.StartEngine]
        (Controller_Init power_on)).current_status = ENGINE_STATUS_RUNNING ∨
     (runOps overheating_sensors [Op.Arm, Op.Run, Op.StartEngine]
        (Controller_Init power_on)).current_status = ENGINE_STATUS_FAULT) ∧
    ((runOps overheating_sensors [Op.Arm, Op.Run, Op.StartEngine, Op.Run, Op.Run]
        (Controller_Init power_on)).current_status = ENGINE_STATUS_IDLE ∨
     (runOps overheating_sensors [Op.Arm, Op.Run, Op.StartEngine, Op.Run, Op.Run]
        (Controller_Init power_on)).current_status = ENGINE_STATUS_SHUTDOWN) :=
  ⟨(reachable_states_coupling overheating_sensors power_on
      [Op.Arm, Op.Run, Op.StartEngine]).2.1 (Or.inl (by decide)),
   (reachable_states_coupling overheating_sensors power_on
      [Op.Arm, Op.Run, Op.StartEngine, Op.Run, Op.Run]).2.2.1
      (Or.inr (Or.inr (Or.inr (by decide))))⟩

/-- C24: `Controller_Arm`, `Controller_Disarm` and `Controller_StopEngine` leave the engine status,
the throttle and the GPIO trace unchanged from every system state, whether they succeed or not.
A successful `StopEngine` from `RUNNING` only sets the controller state to `SHUTDOWN` (and the
entry time to 0); the close commands for valves 0 and 1 are issued and the engine status becomes
`SHUTDOWN` in the following `Controller_Run` cycle. -/
theorem commands_leave_engine_untouched (sensors : Nat → SensorData_t) (w : System) :
    ((Controller_Arm w).2.current_status = w.current_status ∧
     (Controller_Arm w).2.current_throttle = w.current_throttle ∧
     (Controller_Arm w).2.gpio = w.gpio) ∧
    ((Controller_Disarm w).2.current_status = w.current_status ∧
     (Controller_Disarm w).2.current_throttle = w.current_throttle ∧
     (Controller_Disarm w).2.gpio = w.gpio) ∧
    ((Controller_StopEngine w).2.current_status = w.current_status ∧
     (Controller_StopEngine w).2.current_throttle = w.current_throttle ∧
     (Controller_StopEngine w).2.gpio = w.gpio) ∧
    (w.current_state = CONTROLLER_STATE_RUNNING →
      (Controller_StopEngine w).2 =
        { w with current_state := CONTROLLER_STATE_SHUTDOWN, state_entry_time := 0 } ∧
      (Controller_Run sensors (Controller_StopEngine w).2).gpio =
        w.gpio ++ [{ port := 0, pin := 0, state := 0 }, { port := 0, pin := 1, state := 0 }] ∧
      (Controller_Run sensors (Controller_StopEngine w).2).current_status =
        ENGINE_STATUS_SHUTDOWN) := by
  refine ⟨?_, ?_, ?_, ?_⟩
  · unfold Controller_Arm
    split <;> exact ⟨rfl, rfl, rfl⟩
  · unfold Controller_Disarm
    split <;> exact ⟨rfl, rfl, rfl⟩
  · unfold Controller_StopEngine
    split <;> exact ⟨rfl, rfl, rfl⟩
  · intro hrun
    have hstop : Controller_StopEngine w =
        (true, Controller_SetState CONTROLLER_STATE_SHUTDOWN w) := by
      simp [Controller_StopEngine, hrun]
    have hnext : Controller_Run sensors (Controller_StopEngine w).2 =
        Controller_SetState CONTROLLER_STATE_IDLE
          (EngineInterface_Stop (Controller_UpdateTelemetry sensors
            (Controller_SetState CONTROLLER_STATE_SHUTDOWN w))) := by
      rw [hstop]
      exact Controller_Run_of_shutdown sensors _ rfl
    refine ⟨by rw [hstop]; rfl, ?_, ?_⟩
    · rw [hnext]
      simp [Controller_SetState, EngineInterface_Stop_eq, Controller_UpdateTelemetry_eq]
    · rw [hnext]
      rfl

/-- C24, example: stopping the running system leaves the engine status `RUNNING` and the GPIO trace
as it was; the following `Run` cycle sets the engine status to `SHUTDOWN`. -/
theorem commands_leave_engine_untouched_witness :
    (Controller_StopEngine running_system).2.current_status = ENGINE_STATUS_RUNNING ∧
    (Controller_StopEngine running_system).2.gpio = running_system.gpio ∧
    (Controller_Run (steady (reading 20 1)) (Controller_StopEngine running_system).2).current_status =
      ENGINE_STATUS_SHUTDOWN :=
  ⟨by decide,
   (commands_leave_engine_untouched (steady (reading 20 1)) running_system).2.2.1.2.2,
   ((commands_leave_engine_untouched (steady (reading 20 1)) running_system).2.2.2
      (by decide)).2.2⟩

/-! ## Monotonicity of the health check -/

/-- C25: for a steady snapshot, (a) if `Controller_CheckSystemHealth` passes in a system `w1` and
the limits `max_temperature` and `max_pressure` of a system `w2` are at least those of `w1`, it
passes in `w2`; (b) if it passes for the snapshot `s1` in `w1`, the system `w2` has the same two
limits and the snapshot `s2` has temperature and pressure no larger than those of `s1`, it passes
for `s2` in `w2`; (c) two systems with the same two limits and two snapshots with the same
temperature and pressure get the same verdict.  The systems are otherwise arbitrary, so the
verdict does not depend on `target_thrust`, `run_duration_ms`, the flow rate, the controller state
or the engine status. -/
theorem health_check_monotone (s1 s2 : SensorData_t) (w1 w2 : System) :
    ((Controller_CheckSystemHealth (steady s1) w1).1 = true →
      F32.le w1.config.max_temperature w2.config.max_temperature = true →
      F32.le w1.config.max_pressure w2.config.max_pressure = true →
      (Controller_CheckSystemHealth (steady s1) w2).1 = true) ∧
    ((Controller_CheckSystemHealth (steady s1) w1).1 = true →
      w2.config.max_temperature = w1.config.max_temperature →
      w2.config.max_pressure = w1.config.max_pressure →
      F32.le s2.temperature s1.temperature = true →
      F32.le s2.pressure s1.pressure = true →
      (Controller_CheckSystemHealth (steady s2) w2).1 = true) ∧
    (w2.config.max_temperature = w1.config.max_temperature →
      w2.config.max_pressure = w1.config.max_pressure →
      s2.temperature = s1.temperature →
      s2.pressure = s1.pressure →
      (Controller_CheckSystemHealth (steady s2) w2).1 =
        (Controller_CheckSystemHealth (steady s1) w1).1) := by
  refine ⟨?_, ?_, ?_⟩
  · intro h ht hp
    rw [Controller_CheckSystemHealth_steady_fst] at h ⊢
    simp only [Bool.and_eq_true, Bool.not_eq_true'] at h ⊢
    obtain ⟨⟨⟨h1, h2⟩, h3⟩, h4⟩ := h
    exact ⟨⟨⟨h1, h2⟩, F32_gt_false_of_le_right _ _ _ h3 ht⟩,
      F32_gt_false_of_le_right _ _ _ h4 hp⟩
  · intro h ht hp hst hsp
    rw [Controller_CheckSystemHealth_steady_fst] at h ⊢
    simp only [Bool.and_eq_true, Bool.not_eq_true'] at h ⊢
    obtain ⟨⟨⟨h1, h2⟩, h3⟩, h4⟩ := h
    rw [ht, hp]
    exact ⟨⟨⟨F32_gt_false_of_le_left _ _ _ h1 hst, F32_gt_false_of_le_left _ _ _ h2 hsp⟩,
      F32_gt_false_of_le_left _ _ _ h3 hst⟩, F32_gt_false_of_le_left _ _ _ h4 hsp⟩
  · intro ht hp hst hsp
    rw [Controller_CheckSystemHealth_steady_fst, Controller_CheckSystemHealth_steady_fst,
      ht, hp, hst, hsp]

/-- C25, example: a steady 150 degrees C and 50 bar passes in the armed system under the default
limits; it still passes in the running system under the limit raised to 1000 degrees C, and the
cooler snapshot of 20 degrees C and 1 bar (with a flow of 5 L/s) passes under the default
limits. -/
theorem health_check_monotone_witness :
    (Controller_CheckSystemHealth (steady (reading 150 50))
      (Controller_SetConfig (some relaxed_config) running_system)).1 = true ∧
    (Controller_CheckSystemHealth (steady (reading_with_flow 20 1 5)) running_system).1 = true :=
  ⟨(health_check_monotone (reading 150 50) (reading 150 50) armed_system
      (Controller_SetConfig (some relaxed_config) running_system)).1
      (by decide) (by decide) (by decide),
   (health_check_monotone (reading 150 50) (reading_with_flow 20 1 5) armed_system
      running_system).2.1 (by decide) (by decide) (by decide) (by decide) (by decide)⟩
